import Mathlib

/-!
Verification of the real-cost decision pipeline against its specification.

The Go sources are shallowly embedded: exact decimal arithmetic
(shopspring decimal) is modelled by the rationals, float64 quantities that
undergo only ring operations and comparisons are likewise modelled by the
rationals, and float64 quantities that pass through `math.Pow` (confidence
geometric means) are modelled by the reals.  External stores (pricing,
carbon) are parameters of the engine, mirroring the Go interfaces.
-/

namespace Store

/-- A pricing tier row, from `db/clickhouse/store.go` (`TieredRate`):
`Min`/`Max` tier bounds (an absent `Max` marks the unbounded final tier),
unit `Price` and tier `Confidence`. -/
structure TieredRate where
  Min : ℚ
  Max : Option ℚ
  Price : ℚ
  Confidence : ℚ
deriving DecidableEq

/-- The loop body of `CalculateTieredCost` from `db/clickhouse/store.go`:
walks the tier list, each tier consuming `tierSize = Max - Min` (the whole
remainder for the unbounded tier), accumulating cost and tracking the
minimum confidence seen. -/
def tieredGo (remaining totalCost minConf : ℚ) : List TieredRate → ℚ × ℚ
  | [] => (totalCost, minConf)
  | tier :: rest =>
    if remaining ≤ 0 then (totalCost, minConf)
    else
      let tierUsage :=
        match tier.Max with
        | none => remaining
        | some mx =>
          let tierSize := mx - tier.Min
          if remaining > tierSize then tierSize else remaining
      let totalCost := totalCost + tierUsage * tier.Price
      let remaining := remaining - tierUsage
      let minConf := if tier.Confidence < minConf then tier.Confidence else minConf
      tieredGo remaining totalCost minConf rest

/-- `CalculateTieredCost` from `db/clickhouse/store.go`: returns
`(decimal.Zero, 0)` for an empty tier list, otherwise runs the
consumption loop starting from zero cost and confidence floor `1.0`. -/
def CalculateTieredCost (usage : ℚ) (tiers : List TieredRate) : ℚ × ℚ :=
  if tiers = [] then (0, 0) else tieredGo usage 0 1 tiers

/-- Spec-side description (section 4.3, tiered cost computation): the list of
`(tier, consumed quantity)` pairs for the tiers actually touched, consuming
usage in the given ascending order, each bounded tier consuming up to
`tier_max - tier_min`, overflow passing on, the unbounded tier absorbing
the remainder. -/
def specConsume (remaining : ℚ) : List TieredRate → List (TieredRate × ℚ)
  | [] => []
  | t :: rest =>
    if remaining ≤ 0 then []
    else
      let take :=
        match t.Max with
        | none => remaining
        | some mx => min (mx - t.Min) remaining
      (t, take) :: specConsume (remaining - take) rest

/-- Spec-side minimum confidence over the tiers touched: the genuine
minimum of the touched confidences, 1 when no tier is touched. -/
def minOverTouched : List ℚ → ℚ
  | [] => 1
  | c :: cs => cs.foldl min c

/-- Spec-side tiered cost, continued: cost of the consumed quantities paired
with the minimum confidence over the touched tiers. -/
def tieredCostSpec (usage : ℚ) (tiers : List TieredRate) : ℚ × ℚ :=
  let touched := specConsume usage tiers
  ((touched.map fun p => p.2 * p.1.Price).sum,
   minOverTouched (touched.map fun p => p.1.Confidence))

theorem if_lt_eq_min (a b : ℚ) : (if a < b then a else b) = min b a := by
  rcases lt_or_le a b with h | h
  · rw [if_pos h, min_eq_right h.le]
  · rw [if_neg (not_lt.mpr h), min_eq_left h]

theorem if_gt_eq_min (r s : ℚ) : (if r > s then s else r) = min s r := by
  rcases lt_or_le s r with h | h
  · rw [if_pos h, min_eq_left h.le]
  · rw [if_neg (not_lt.mpr h), min_eq_right h]

theorem tieredGo_spec (tiers : List TieredRate) :
    ∀ remaining c m, tieredGo remaining c m tiers =
      (c + ((specConsume remaining tiers).map fun p => p.2 * p.1.Price).sum,
       ((specConsume remaining tiers).map fun p => p.1.Confidence).foldl min m) := by
  induction tiers with
  | nil => intro remaining c m; simp [tieredGo, specConsume]
  | cons t rest ih =>
    intro remaining c m
    by_cases h : remaining ≤ 0
    · simp [tieredGo, specConsume, h]
    · cases hmx : t.Max with
      | none =>
        simp only [tieredGo, specConsume, h, if_false, hmx, ih, List.map_cons,
          List.sum_cons, List.foldl_cons, Prod.mk.injEq]
        exact ⟨by ring, by rw [if_lt_eq_min, min_comm]⟩
      | some mx =>
        simp only [tieredGo, specConsume, h, if_false, hmx, ih, List.map_cons,
          List.sum_cons, List.foldl_cons, Prod.mk.injEq, if_gt_eq_min]
        exact ⟨by ring, by rw [min_comm]⟩

theorem specConsume_mem {r : ℚ} {tiers : List TieredRate} {p : TieredRate × ℚ}
    (hp : p ∈ specConsume r tiers) : p.1 ∈ tiers := by
  induction tiers generalizing r with
  | nil => simp [specConsume] at hp
  | cons t rest ih =>
    by_cases h : r ≤ 0
    · simp [specConsume, h] at hp
    · simp only [specConsume, h, if_false, List.mem_cons] at hp
      rcases hp with rfl | hp
      · exact List.mem_cons_self _ _
      · exact List.mem_cons_of_mem _ (ih hp)

theorem foldl_min_one {l : List ℚ} (hl : ∀ c ∈ l, c ≤ 1) :
    l.foldl min 1 = minOverTouched l := by
  cases l with
  | nil => rfl
  | cons c cs =>
    simp only [List.foldl_cons, minOverTouched]
    rw [min_eq_right (hl c (List.mem_cons_self c cs))]

/-- The tiers of the spec's scenario 6: `[0,100)` at `$0.09` with confidence
`0.9` and `[100,unbounded)` at `$0.05` with confidence `0.8`. -/
def demoTiersC5 : List TieredRate :=
  [⟨0, some 100, 0.09, 0.9⟩, ⟨100, none, 0.05, 0.8⟩]

end Store

/-- C5: tiered cost computation consumes usage against the tiers in ascending
order, each bounded tier consuming up to `tier_max - tier_min`, overflow
passing to the next tier, the final unbounded tier absorbing the remainder,
and the confidence returned is the minimum confidence over the tiers touched
(given the data-model invariant that tier confidences lie in `[0,1]`); in
particular 150 GB against tiers `[0,100)` at `$0.09` and `[100,inf)` at
`$0.05` splits `100 + 50` and costs `11.50`, with the minimum tier
confidence. -/
theorem c5_tiered_cost_matches_spec :
    (∀ (usage : ℚ) (tiers : List Store.TieredRate), tiers ≠ [] →
      (∀ t ∈ tiers, t.Confidence ≤ 1) →
      Store.CalculateTieredCost usage tiers = Store.tieredCostSpec usage tiers) ∧
    ((Store.specConsume 150 Store.demoTiersC5).map (fun p => p.2) = [100, 50] ∧
     Store.CalculateTieredCost 150 Store.demoTiersC5 = (11.50, 0.8)) := by
  constructor
  · intro usage tiers hne hconf
    unfold Store.CalculateTieredCost Store.tieredCostSpec
    rw [if_neg hne, Store.tieredGo_spec]
    refine Prod.ext (by simp) ?_
    simp only
    exact Store.foldl_min_one fun c hc => by
      rcases List.mem_map.mp hc with ⟨p, hp, rfl⟩
      exact hconf _ (Store.specConsume_mem hp)
  · constructor
    · norm_num [Store.demoTiersC5, Store.specConsume, min_def]
    · norm_num [Store.demoTiersC5, Store.CalculateTieredCost, Store.tieredGo]
      intro h
      simp at h

/-- C5 witness: the general refinement applied to the concrete scenario-6
tiers, discharging both hypotheses there. -/
theorem c5_witness :
    Store.CalculateTieredCost 150 Store.demoTiersC5 =
      Store.tieredCostSpec 150 Store.demoTiersC5 :=
  c5_tiered_cost_matches_spec.1 150 Store.demoTiersC5
    (by simp [Store.demoTiersC5]) (by norm_num [Store.demoTiersC5])

namespace Confidence

open Classical in
/-- `Aggregate` from the confidence package (`pkg/confidence`): geometric
mean of the scores, 0 for an empty list, with an early 0 return as soon as
a score is not positive.  `math.Pow` is the real power. -/
noncomputable def Aggregate (scores : List ℝ) : ℝ :=
  if scores = [] then 0
  else if ∃ s ∈ scores, s ≤ 0 then 0
  else scores.prod ^ ((1 : ℝ) / scores.length)

/-- `Decay` from the confidence package: multiplies the base by `0.9` per
decay step, returning the base unchanged for a non-positive step count. -/
noncomputable def Decay (base : ℝ) (factors : ℤ) : ℝ :=
  if factors ≤ 0 then base else base * (0.9 : ℝ) ^ (factors : ℝ)

/-- Default confidence constants from the confidence package. -/
def HighConfidence : ℝ := 0.95

def MediumConfidence : ℝ := 0.80

def LowConfidence : ℝ := 0.60

def MinConfidence : ℝ := 0.50

/-- Spec-side geometric mean of a list of confidences
(section 4.2: combined by geometric mean). -/
noncomputable def geomMean (l : List ℝ) : ℝ :=
  l.prod ^ ((1 : ℝ) / l.length)

theorem Aggregate_eq_geomMean {l : List ℝ} (hne : l ≠ [])
    (hpos : ∀ s ∈ l, 0 < s) : Aggregate l = geomMean l := by
  unfold Aggregate geomMean
  rw [if_neg hne, if_neg]
  push_neg
  exact fun s hs => hpos s hs

end Confidence

namespace Usage

/-- `api.VarianceProfile` from `pkg/api/billing.go`. -/
structure VarianceProfile where
  Pattern : String
  Seasonality : String
  Confidence : ℝ

/-- An attribute value in a component attribute map (`map[string]any`). -/
inductive AttrValue
  | aFloat (v : ℚ)
  | aInt (v : ℤ)
  | aStr (s : String)
  | aBool (b : Bool)
  | aOther

/-- `api.MappingError` from `pkg/api/billing.go`. -/
structure MappingError where
  Code : String
  Message : String
  Recoverable : Bool
deriving DecidableEq

/-- `api.BillingComponent` from `pkg/api/billing.go`.  The Go field `Type`
(the component category) is called `CompType` here because `Type` is not a
legal Lean field name; `ComponentType`, `UsageType` and `Lifecycle` string
constants are used literally. -/
structure BillingComponent where
  ID : String
  ResourceID : String
  CompType : String
  UsageType : String
  Lifecycle : String
  VarianceProfile : VarianceProfile
  Dependencies : List String
  Attributes : List (String × AttrValue)
  MappingError : Option MappingError

/-- `api.UsagePrediction` from `pkg/api/usage.go`.  `P50`/`P90` undergo only
ring operations and are rationals; `Confidence` passes through the
geometric mean and is a real. -/
structure UsagePrediction where
  ComponentID : String
  Metric : String
  Unit : String
  P50 : ℚ
  P90 : ℚ
  Confidence : ℝ
  Assumptions : List String

/-- `api.UsageResult` from `pkg/api/usage.go`. -/
structure UsageResult where
  Predictions : List UsagePrediction
  AverageConfidence : ℝ
  Environment : String

/-- `UsageProfile` from `internal/usage/predictor.go`. -/
structure UsageProfile where
  Name : String
  UtilizationFactor : ℚ
  GrowthFactor : ℚ
  VarianceFactor : ℚ
  BaseConfidence : ℝ

/-- The `dev` profile installed by `NewPredictor`. -/
def devProfile : UsageProfile := ⟨"Development", 0.2, 0, 1.3, 0.7⟩

/-- The `staging` profile installed by `NewPredictor`. -/
def stagingProfile : UsageProfile := ⟨"Staging", 0.4, 0.05, 1.4, 0.65⟩

/-- The `prod` profile installed by `NewPredictor`. -/
def prodProfile : UsageProfile := ⟨"Production", 0.7, 0.1, 1.5, 0.6⟩

/-- The profile lookup performed at the top of `Predictor.Predict`:
`profile, exists := p.profiles[environment]; if !exists` the `dev` profile
is substituted (the code comment reads `Conservative default`). -/
def lookupProfile (env : String) : UsageProfile :=
  if env = "dev" then devProfile
  else if env = "staging" then stagingProfile
  else if env = "prod" then prodProfile
  else devProfile

/-- `getFloatAttr` from `internal/usage/predictor.go`: a float attribute,
an int attribute cast to float, else the default. -/
def getFloatAttr (attrs : List (String × AttrValue)) (key : String)
    (defaultVal : ℚ) : ℚ :=
  match (attrs.find? fun p => p.1 = key).map Prod.snd with
  | some (.aFloat v) => v
  | some (.aInt v) => (v : ℚ)
  | _ => defaultVal

/-- `Predictor.predictCompute` from `internal/usage/predictor.go`: 730 hours
per month scaled by usage type; on-demand applies the utilization factor to
P50 and additionally the variance factor to P90, with no cap. -/
noncomputable def predictCompute (comp : BillingComponent)
    (profile : UsageProfile) (pred : UsagePrediction) : UsagePrediction :=
  let pred := { pred with Metric := "hours", Unit := "hours/month" }
  match comp.UsageType with
  | "on_demand" =>
    { pred with
      P50 := 730 * profile.UtilizationFactor
      P90 := 730 * profile.UtilizationFactor * profile.VarianceFactor
      Assumptions := pred.Assumptions ++
        ["base-730-hours", "utilization-" ++ profile.Name] }
  | "reserved" =>
    { pred with
      P50 := 730
      P90 := 730
      Confidence := Confidence.HighConfidence
      Assumptions := pred.Assumptions ++ ["reserved-full-utilization"] }
  | "spot" =>
    { pred with
      P50 := 730 * 0.85
      P90 := 730 * 0.95
      Confidence := Confidence.Decay pred.Confidence 1
      Assumptions := pred.Assumptions ++ ["spot-interruption-risk"] }
  | _ => { pred with P50 := 730, P90 := 730 }

/-- `Predictor.predictStorage` from `internal/usage/predictor.go`. -/
noncomputable def predictStorage (comp : BillingComponent)
    (profile : UsageProfile) (pred : UsagePrediction) : UsagePrediction :=
  let size := getFloatAttr comp.Attributes "volume_size" 100
  { pred with
    Metric := "gb_months"
    Unit := "GB-months"
    P50 := size
    P90 := size * (1 + profile.GrowthFactor)
    Confidence := Confidence.HighConfidence
    Assumptions := pred.Assumptions ++
      ["provisioned-storage", "monthly-growth-possible"] }

/-- `Predictor.predictNetwork` from `internal/usage/predictor.go`. -/
noncomputable def predictNetwork (comp : BillingComponent)
    (profile : UsageProfile) (pred : UsagePrediction) : UsagePrediction :=
  let baseGB : ℚ :=
    match profile.Name with
    | "Production" => 100
    | "Staging" => 50
    | _ => 10
  { pred with
    Metric := "gb_transfer"
    Unit := "GB/month"
    P50 := baseGB * profile.UtilizationFactor
    P90 := baseGB * profile.UtilizationFactor * 2
    Confidence := Confidence.LowConfidence
    Assumptions := pred.Assumptions ++
      ["network-heuristic", "high-variance-warning"] }

/-- `Predictor.predictData` from `internal/usage/predictor.go`. -/
noncomputable def predictData (comp : BillingComponent)
    (profile : UsageProfile) (pred : UsagePrediction) : UsagePrediction :=
  let baseRequests : ℚ :=
    match profile.Name with
    | "Production" => 1000000
    | "Staging" => 100000
    | _ => 10000
  { pred with
    Metric := "requests"
    Unit := "requests/month"
    P50 := baseRequests * profile.UtilizationFactor
    P90 := baseRequests * profile.VarianceFactor
    Confidence := Confidence.MinConfidence
    Assumptions := pred.Assumptions ++
      ["request-heuristic", "requires-historical-data"] }

/-- `Predictor.predictComponent` from `internal/usage/predictor.go`:
combines the variance-profile confidence (profile base when zero) with the
profile base confidence by `confidence.Aggregate`, then dispatches on the
component type. -/
noncomputable def predictComponent (comp : BillingComponent)
    (profile : UsageProfile) : UsagePrediction :=
  let baseConf :=
    if comp.VarianceProfile.Confidence = 0 then profile.BaseConfidence
    else comp.VarianceProfile.Confidence

  let pred : UsagePrediction :=
    ⟨comp.ID, "", "", 0, 0,
     Confidence.Aggregate [baseConf, profile.BaseConfidence], []⟩
  match comp.CompType with
  | "compute" => predictCompute comp profile pred
  | "storage" => predictStorage comp profile pred
  | "network" => predictNetwork comp profile pred
  | "data" => predictData comp profile pred
  | _ =>
    { pred with
      Metric := "units"
      Unit := "units"
      P50 := 1
      P90 := 1
      Confidence := Confidence.LowConfidence
      Assumptions := pred.Assumptions ++ ["unknown-component-type"] }

/-- `Predictor.Predict` from `internal/usage/predictor.go`: looks up the
environment profile (silently substituting `dev` when unknown), predicts
every component, and averages the prediction confidences. -/
noncomputable def Predict (components : List BillingComponent)
    (environment : String) : UsageResult :=
  let profile := lookupProfile environment
  let preds := components.map fun comp => predictComponent comp profile
  { Predictions := preds
    AverageConfidence :=
      if 0 < preds.length then
        (preds.map fun p => p.Confidence).sum / preds.length
      else 0
    Environment := environment }

end Usage

/-- The concrete on-demand compute component used for the usage claims. -/
def demoCompC8 : Usage.BillingComponent :=
  ⟨"c8", "aws_instance.web", "compute", "on_demand", "hourly",
   ⟨"stable", "none", 0.5⟩, [], [], none⟩

/-- A bare prediction record, as `predictComponent` seeds it before the
per-kind dispatch. -/
noncomputable def demoPredC8 : Usage.UsagePrediction :=
  ⟨"c8", "", "", 0, 0, 0.6, []⟩

/-- C8 counterexample: with the `prod` profile (utilization `0.7`, variance
factor `1.5`) an on-demand compute forecast has `P90 = 730 × 0.7 × 1.5 =
766.5 > 730`; `predictCompute` applies no cap at 730, so the claimed cap
is violated at this input. -/
theorem c8_counterexample :
    (Usage.predictCompute demoCompC8 Usage.prodProfile demoPredC8).P90 = 766.5 ∧
    ¬ (Usage.predictCompute demoCompC8 Usage.prodProfile demoPredC8).P90 ≤ 730 := by
  constructor
  · norm_num [Usage.predictCompute, demoCompC8, demoPredC8, Usage.prodProfile]
  · norm_num [Usage.predictCompute, demoCompC8, demoPredC8, Usage.prodProfile]

/-- C8 (amended): for an on-demand compute component the forecast satisfies
`P50 = 730 × utilization` and `P90 = P50 × variance factor`, with no cap at
730 hours (the spec's cap is absent from `predictCompute`). -/
theorem c8_on_demand_forecast (comp : Usage.BillingComponent)
    (profile : Usage.UsageProfile) (pred : Usage.UsagePrediction)
    (h : comp.UsageType = "on_demand") :
    (Usage.predictCompute comp profile pred).P50 =
      730 * profile.UtilizationFactor ∧
    (Usage.predictCompute comp profile pred).P90 =
      (Usage.predictCompute comp profile pred).P50 * profile.VarianceFactor := by
  simp only [Usage.predictCompute, h]
  exact ⟨trivial, trivial⟩

/-- C8 witness: the amended on-demand forecast law applied to the concrete
component, the hypothesis discharged by `rfl`. -/
theorem c8_witness :
    (Usage.predictCompute demoCompC8 Usage.devProfile demoPredC8).P50 =
      730 * Usage.devProfile.UtilizationFactor ∧
    (Usage.predictCompute demoCompC8 Usage.devProfile demoPredC8).P90 =
      (Usage.predictCompute demoCompC8 Usage.devProfile demoPredC8).P50 *
        Usage.devProfile.VarianceFactor :=
  c8_on_demand_forecast demoCompC8 Usage.devProfile demoPredC8 rfl

/-- The concrete component used for the unknown-environment claim. -/
def demoCompC9 : Usage.BillingComponent :=
  ⟨"c9", "aws_instance.api", "compute", "on_demand", "hourly",
   ⟨"stable", "none", 0.5⟩, [], [], none⟩

/-- C9 counterexample: predicting with the unrecognized environment `qa`
does not fail — `Predict` is total, returns a prediction for the component,
and silently produces exactly the `dev`-profile predictions. -/
theorem c9_counterexample :
    (Usage.Predict [demoCompC9] "qa").Predictions.length = 1 ∧
    (Usage.Predict [demoCompC9] "qa").Predictions =
      (Usage.Predict [demoCompC9] "dev").Predictions := by
  constructor
  · simp [Usage.Predict]
  · simp [Usage.Predict, Usage.lookupProfile]

/-- C9 (amended): a usage-forecast request naming no recognized profile is
silently served with the `dev` profile: the predictions and average
confidence equal those of a `dev` request, and no error of any kind is
raised (`Predict` has no error result). -/
theorem c9_unknown_environment_defaults (comps : List Usage.BillingComponent)
    (env : String) (h1 : env ≠ "dev") (h2 : env ≠ "staging")
    (h3 : env ≠ "prod") :
    (Usage.Predict comps env).Predictions =
      (Usage.Predict comps "dev").Predictions ∧
    (Usage.Predict comps env).AverageConfidence =
      (Usage.Predict comps "dev").AverageConfidence := by
  simp [Usage.Predict, Usage.lookupProfile, h1, h2, h3]

/-- C9 witness: the silent-default law applied to the concrete request with
environment `qa`, the three inequalities discharged by `decide`. -/
theorem c9_witness :
    (Usage.Predict [demoCompC9] "qa").Predictions =
      (Usage.Predict [demoCompC9] "dev").Predictions ∧
    (Usage.Predict [demoCompC9] "qa").AverageConfidence =
      (Usage.Predict [demoCompC9] "dev").AverageConfidence :=
  c9_unknown_environment_defaults [demoCompC9] "qa"
    (by decide) (by decide) (by decide)

namespace Calc

/-- `pricing.ResolvedPrice` from `internal/pricing/resolver.go`. -/
structure ResolvedPrice where
  ComponentID : String
  SKUID : String
  PricePerUnit : ℚ
  Unit : String
  CarbonIntensity : ℚ
  Explanation : String

/-- `pricing.PriceResult` from `internal/pricing/resolver.go`. -/
structure PriceResult where
  Prices : List ResolvedPrice
  Warnings : List String

/-- `api.SemanticResult` from `pkg/api/billing.go`. -/
structure SemanticResult where
  Components : List Usage.BillingComponent
  MappingErrors : List Usage.MappingError

/-- `api.CostRange` from the api result types. -/
structure CostRange where
  P50 : ℚ
  P90 : ℚ
  Currency : String

/-- `api.CarbonEstimate` from the api result types. -/
structure CarbonEstimate where
  KgCO2e : ℚ
  Confidence : ℚ
  Region : String

/-- `api.CostDriver` from the api result types. -/
structure CostDriver where
  ResourceID : String
  Name : String
  MonthlyCost : ℚ
  Percentage : ℚ

/-- `api.EstimationError` from the api result types. -/
structure EstimationError where
  ResourceID : String
  Code : String
  Message : String
  Recoverable : Bool

/-- `api.LineageItem` from the api result types. -/
structure LineageItem where
  ResourceID : String
  Component : String
  SKU : String
  Price : ℚ
  Unit : String
  Quantity : ℚ
  MonthlyCost : ℚ
  Explanation : String

/-- `estimation.Result` from the fail-closed draft of the estimation
calculator. -/
structure Result where
  TotalCost : CostRange
  TotalCarbon : CarbonEstimate
  Drivers : List CostDriver
  ConfidenceScore : ℝ
  IsIncomplete : Bool
  Errors : List EstimationError
  Lineage : List LineageItem

/-- The `usageMap[p.ComponentID] = p` lookup built by
`CalculateFromComponents`: the last prediction for an id wins, as for a Go
map filled in order. -/
def usageLookup (usage : Usage.UsageResult) (id : String) :
    Option Usage.UsagePrediction :=
  usage.Predictions.reverse.find? fun p => p.ComponentID = id

/-- The `priceMap[p.ComponentID] = p` lookup built by
`CalculateFromComponents`. -/
def priceLookup (prices : PriceResult) (id : String) : Option ResolvedPrice :=
  prices.Prices.reverse.find? fun p => p.ComponentID = id

/-- The loop state of `CalculateFromComponents`: per-component confidences,
running totals, the fail-closed `missingData` flag, and the accumulated
errors and lineage. -/
structure CalcAcc where
  confidences : List ℝ
  totalP50 : ℚ
  totalP90 : ℚ
  totalCarbon : ℚ
  missingData : Bool
  errors : List EstimationError
  lineage : List LineageItem

/-- One iteration of the component loop of `CalculateFromComponents`
(fail-closed draft): a component with no usage prediction or no price
records a `MISSING_USAGE` / `MISSING_PRICE` error and sets `missingData`;
otherwise cost, carbon, confidence and lineage accumulate. -/
def calcStep (usage : Usage.UsageResult) (prices : PriceResult)
    (acc : CalcAcc) (comp : Usage.BillingComponent) : CalcAcc :=
  match usageLookup usage comp.ID, priceLookup prices comp.ID with
  | none, _ =>
    { acc with
      errors := acc.errors ++
        [⟨comp.ResourceID, "MISSING_USAGE",
          "No usage prediction for component: " ++ comp.ID, false⟩]
      missingData := true }
  | some _, none =>
    { acc with
      errors := acc.errors ++
        [⟨comp.ResourceID, "MISSING_PRICE",
          "No price found for component: " ++ comp.ID, false⟩]
      missingData := true }
  | some u, some p =>
    let p50Cost := u.P50 * p.PricePerUnit
    let p90Cost := u.P90 * p.PricePerUnit
    { acc with
      totalP50 := acc.totalP50 + p50Cost
      totalP90 := acc.totalP90 + p90Cost
      totalCarbon := acc.totalCarbon + u.P50 * p.CarbonIntensity
      confidences := acc.confidences ++ [u.Confidence]
      lineage := acc.lineage ++
        [⟨comp.ResourceID, comp.CompType, p.SKUID, p.PricePerUnit, p.Unit,
          u.P50, p50Cost, p.Explanation⟩] }

/-- The accumulated loop state after processing all components. -/
def calcAccOf (sem : SemanticResult) (usage : Usage.UsageResult)
    (prices : PriceResult) : CalcAcc :=
  sem.Components.foldl (calcStep usage prices) ⟨[], 0, 0, 0, false, [], []⟩

/-- `costs[item.ResourceID] += item.MonthlyCost` accumulation used by
`extractDrivers`, as an association list in first-occurrence order (the Go
map iteration order is unspecified; every property proved below is
order-independent). -/
def addCost : List (String × ℚ) → String → ℚ → List (String × ℚ)
  | [], id, c => [(id, c)]
  | (k, v) :: rest, id, c =>
    if k = id then (k, v + c) :: rest else (k, v) :: addCost rest id c

/-- The grouped per-resource costs of `extractDrivers`. -/
def groupCosts (lineage : List LineageItem) : List (String × ℚ) :=
  lineage.foldl (fun acc item => addCost acc item.ResourceID item.MonthlyCost) []

/-- Insertion step for the descending sort of `extractDrivers`
(`sort.Slice` with `MonthlyCost >`). -/
def insertDriverDesc (d : CostDriver) : List CostDriver → List CostDriver
  | [] => [d]
  | x :: xs =>
    if x.MonthlyCost < d.MonthlyCost then d :: x :: xs
    else x :: insertDriverDesc d xs

/-- Descending insertion sort by monthly cost. -/
def sortDriversDesc (l : List CostDriver) : List CostDriver :=
  l.foldr insertDriverDesc []

theorem length_insertDriverDesc (d : CostDriver) (l : List CostDriver) :
    (insertDriverDesc d l).length = l.length + 1 := by
  induction l with
  | nil => rfl
  | cons x xs ih =>
    by_cases h : x.MonthlyCost < d.MonthlyCost
    · simp [insertDriverDesc, h]
    · simp [insertDriverDesc, h, ih]

theorem length_sortDriversDesc (l : List CostDriver) :
    (sortDriversDesc l).length = l.length := by
  induction l with
  | nil => rfl
  | cons x xs ih =>
    simp only [sortDriversDesc, List.foldr_cons] at ih ⊢
    rw [length_insertDriverDesc, ih, List.length_cons]

/-- `Calculator.extractDrivers` from the estimation calculator: nil when the
total is zero, otherwise per-resource cost totals with percentages, sorted
by monthly cost descending and truncated to the top 5. -/
def extractDrivers (lineage : List LineageItem) (total : ℚ) : List CostDriver :=
  if total = 0 then []
  else
    let drivers := (groupCosts lineage).map fun p =>
      (⟨p.1, p.1, p.2, p.2 / total * 100⟩ : CostDriver)
    (sortDriversDesc drivers).take 5

/-- `Calculator.CalculateFromComponents` from the fail-closed draft of the
estimation calculator (`FAIL-CLOSED` comments in the source): mapping
errors return early with zero totals and drivers; a component with missing
usage or price data zeroes all totals and nils the drivers; otherwise
totals, geometric-mean confidence and the top-5 drivers are produced. -/
noncomputable def CalculateFromComponents (sem : SemanticResult)
    (usage : Usage.UsageResult) (prices : PriceResult) : Result :=
  if 0 < sem.MappingErrors.length then
    { TotalCost := ⟨0, 0, "USD"⟩
      TotalCarbon := ⟨0, 0, ""⟩
      Drivers := []
      ConfidenceScore := 0
      IsIncomplete := true
      Errors := sem.MappingErrors.map fun e => ⟨"", e.Code, e.Message, e.Recoverable⟩
      Lineage := [] }
  else
    let acc := calcAccOf sem usage prices
    if acc.missingData then
      { TotalCost := ⟨0, 0, "USD"⟩
        TotalCarbon := ⟨0, 0, ""⟩
        Drivers := []
        ConfidenceScore := 0
        IsIncomplete := true
        Errors := acc.errors
        Lineage := acc.lineage }
    else
      { TotalCost := ⟨acc.totalP50, acc.totalP90, "USD"⟩
        TotalCarbon := ⟨acc.totalCarbon, 0, ""⟩
        Drivers := extractDrivers acc.lineage acc.totalP50
        ConfidenceScore :=
          if 0 < acc.confidences.length then Confidence.Aggregate acc.confidences
          else 0
        IsIncomplete := false
        Errors := acc.errors
        Lineage := acc.lineage }

end Calc

/-- Six lineage items with six distinct resources and positive costs,
totalling 21. -/
def demoLineageC10 : List Calc.LineageItem :=
  [⟨"r1", "compute", "s1", 1, "hours", 6, 6, ""⟩,
   ⟨"r2", "compute", "s2", 1, "hours", 5, 5, ""⟩,
   ⟨"r3", "storage", "s3", 1, "GB", 4, 4, ""⟩,
   ⟨"r4", "storage", "s4", 1, "GB", 3, 3, ""⟩,
   ⟨"r5", "network", "s5", 1, "GB", 2, 2, ""⟩,
   ⟨"r6", "data", "s6", 1, "requests", 1, 1, ""⟩]

/-- C10: the calculator's driver extraction returns at most 5 drivers and
returns the empty list whenever the total P50 cost is zero, also on
non-empty lineage; concretely, six distinct billed resources with positive
costs yield only 5 drivers, so one resource is silently omitted. -/
theorem c10_extract_drivers_top5 :
    (∀ (lineage : List Calc.LineageItem) (total : ℚ),
      (Calc.extractDrivers lineage total).length ≤ 5 ∧
      (total = 0 → Calc.extractDrivers lineage total = [])) ∧
    (demoLineageC10.length = 6 ∧
     (demoLineageC10.map fun i => i.ResourceID).Nodup ∧
     (Calc.extractDrivers demoLineageC10 21).length = 5 ∧
     Calc.extractDrivers demoLineageC10 0 = []) := by
  constructor
  · intro lineage total
    constructor
    · unfold Calc.extractDrivers
      by_cases ht : total = 0
      · simp [ht]
      · rw [if_neg ht]
        simp only [List.length_take]
        exact min_le_left _ _
    · intro ht
      simp [Calc.extractDrivers, ht]
  · refine ⟨rfl, by decide, ?_, by simp [Calc.extractDrivers]⟩
    rw [Calc.extractDrivers, if_neg (by norm_num)]
    simp only [List.length_take, Calc.length_sortDriversDesc, List.length_map]
    rw [show (Calc.groupCosts demoLineageC10).length = 6 from by
      simp [Calc.groupCosts, Calc.addCost, demoLineageC10]]
    omega

/-- C10 witness: the general bound applied to the concrete six-resource
lineage, with the zero-total hypothesis discharged at `0`. -/
theorem c10_witness :
    (Calc.extractDrivers demoLineageC10 21).length ≤ 5 ∧
    Calc.extractDrivers demoLineageC10 0 = [] :=
  ⟨(c10_extract_drivers_top5.1 demoLineageC10 21).1,
   (c10_extract_drivers_top5.1 demoLineageC10 0).2 rfl⟩

/-- C3 (amended): in the fail-closed calculator the aggregate confidence of
a completed estimation is `confidence.Aggregate`, the geometric mean of the
confidences of the costed (non-symbolic) components, and mapping errors or
missing component data force the aggregate confidence to 0.  (The
`Engine.Estimate` variant instead reports the minimum driver confidence;
see the counterexample.) -/
theorem c3_confidence_geometric_mean (sem : Calc.SemanticResult)
    (usage : Usage.UsageResult) (prices : Calc.PriceResult) :
    (sem.MappingErrors ≠ [] →
      (Calc.CalculateFromComponents sem usage prices).ConfidenceScore = 0) ∧
    (sem.MappingErrors = [] →
      (Calc.calcAccOf sem usage prices).missingData = true →
      (Calc.CalculateFromComponents sem usage prices).ConfidenceScore = 0) ∧
    (sem.MappingErrors = [] →
      (Calc.calcAccOf sem usage prices).missingData = false →
      (Calc.calcAccOf sem usage prices).confidences ≠ [] →
      (∀ c ∈ (Calc.calcAccOf sem usage prices).confidences, 0 < c) →
      (Calc.CalculateFromComponents sem usage prices).ConfidenceScore =
        Confidence.geomMean (Calc.calcAccOf sem usage prices).confidences) := by
  refine ⟨?_, ?_, ?_⟩
  · intro hme
    simp only [Calc.CalculateFromComponents,
      if_pos (List.length_pos.mpr hme)]
  · intro hme hmiss
    simp only [Calc.CalculateFromComponents, hme, List.length_nil,
      lt_irrefl, if_false, hmiss, if_true]
  · intro hme hmiss hne hpos
    simp only [Calc.CalculateFromComponents, hme, List.length_nil,
      lt_irrefl, if_false, hmiss, Bool.false_eq_true, if_true,
      if_pos (List.length_pos.mpr hne)]
    exact Confidence.Aggregate_eq_geomMean hne hpos

/-- Two components both priced, with usage confidences `0.4` and `0.9`. -/
def demoSemC3 : Calc.SemanticResult :=
  ⟨[⟨"c1", "aws_instance.a", "compute", "on_demand", "hourly",
     ⟨"stable", "none", 0.4⟩, [], [], none⟩,
    ⟨"c2", "aws_instance.b", "compute", "on_demand", "hourly",
     ⟨"stable", "none", 0.9⟩, [], [], none⟩], []⟩

/-- Usage predictions for the two components of `demoSemC3`. -/
noncomputable def demoUsageC3 : Usage.UsageResult :=
  ⟨[⟨"c1", "hours", "hours", 10, 12, 0.4, []⟩,
    ⟨"c2", "hours", "hours", 5, 6, 0.9, []⟩], 0, "dev"⟩

/-- Prices for the two components of `demoSemC3`. -/
def demoPricesC3 : Calc.PriceResult :=
  ⟨[⟨"c1", "sku1", 1, "hours", 0, ""⟩,
    ⟨"c2", "sku2", 2, "hours", 0, ""⟩], []⟩

/-- C3 witness: the geometric-mean law applied to the concrete completed
two-component estimation, discharging all four hypotheses there. -/
theorem c3_witness :
    (Calc.CalculateFromComponents demoSemC3 demoUsageC3 demoPricesC3).ConfidenceScore =
      Confidence.geomMean
        (Calc.calcAccOf demoSemC3 demoUsageC3 demoPricesC3).confidences :=
  (c3_confidence_geometric_mean demoSemC3 demoUsageC3 demoPricesC3).2.2 rfl
    rfl
    (by simp [show (Calc.calcAccOf demoSemC3 demoUsageC3 demoPricesC3).confidences
        = [(0.4 : ℝ), 0.9] from rfl])
    (by
      rw [show (Calc.calcAccOf demoSemC3 demoUsageC3 demoPricesC3).confidences
        = [(0.4 : ℝ), 0.9] from rfl]
      intro c hc
      rcases List.mem_cons.mp hc with rfl | hc
      · norm_num
      · rcases List.mem_cons.mp hc with rfl | hc
        · norm_num
        · simp at hc)

namespace Billing

/-- `VarianceProfile` from the billing semantic engine (part of the
`decision/billing` package). -/
structure VarianceProfile where
  BaselineUsage : ℚ
  MinUsage : ℚ
  MaxUsage : ℚ
  P50Usage : ℚ
  P90Usage : ℚ
  Confidence : ℚ
  VolatilityScore : ℚ
  Assumptions : List String
deriving DecidableEq

/-- `BillingComponent` from the billing semantic engine.  `BillingPeriod` is
the billing-period string constant (`hourly`, `monthly`, `per_request`,
`per_gb`, ...). -/
structure BillingComponent where
  ID : String
  ResourceAddr : String
  Cloud : String
  Service : String
  ProductFamily : String
  Region : String
  UsageType : String
  BillingPeriod : String
  Attributes : List (String × String)
  VarianceProfile : VarianceProfile
  Description : String
  Tags : List String
  DependsOn : List String
deriving DecidableEq

/-- `MappingError` from the billing semantic engine. -/
structure MappingError where
  ResourceAddr : String
  ResourceType : String
  Reason : String
  IsCritical : Bool
deriving DecidableEq

/-- The `iac.Resource` fields the semantic engine reads.  The Go field
`Type` is called `ResType` because `Type` is not a legal Lean name. -/
structure Resource where
  Address : String
  ResType : String
  Mode : String
deriving DecidableEq

/-- `iac.GraphNode`: a resource with its resolved dependency addresses. -/
structure GraphNode where
  Resource : Resource
  Dependencies : List String
deriving DecidableEq

/-- A `ResourceMapper` (Go interface): its resource type string and its
`MapToBillingComponents` function. -/
structure ResourceMapper where
  resourceType : String
  mapToBillingComponents : GraphNode → List BillingComponent × List MappingError

/-- `MapperRegistry` from the billing semantic engine: mappers keyed by
type, plus alias redirections. -/
structure MapperRegistry where
  mappers : List (String × ResourceMapper)
  aliases : List (String × String)

/-- `MapperRegistry.GetMapper`: direct registration first, then one alias
hop. -/
def MapperRegistry.GetMapper (r : MapperRegistry) (resourceType : String) :
    Option ResourceMapper :=
  match r.mappers.lookup resourceType with
  | some m => some m
  | none =>
    match r.aliases.lookup resourceType with
    | some canonical => r.mappers.lookup canonical
    | none => none

/-- The billing semantic `Engine`: its own mapper table and a registry. -/
structure Engine where
  mappers : List (String × ResourceMapper)
  registry : MapperRegistry

/-- `Engine.findMapper`: exact match in the engine table, then the
registry. -/
def Engine.findMapper (e : Engine) (resourceType : String) :
    Option ResourceMapper :=
  match e.mappers.lookup resourceType with
  | some m => some m
  | none => e.registry.GetMapper resourceType

/-- `DecompositionResult` from the billing semantic engine. -/
structure DecompositionResult where
  Components : List BillingComponent
  MappingErrors : List MappingError
  ResourcesProcessed : ℕ
  ResourcesMapped : ℕ
  ResourcesSkipped : ℕ
  ComponentsCreated : ℕ
  CoveredTypes : List String
  UncoveredTypes : List String

/-- The loop state of `Engine.Decompose`: the result fields under
construction, the covered/uncovered type sets, and the
`componentsByResource` map used for dependency resolution. -/
structure DecompState where
  Components : List BillingComponent
  MappingErrors : List MappingError
  ResourcesProcessed : ℕ
  ResourcesMapped : ℕ
  ResourcesSkipped : ℕ
  ComponentsCreated : ℕ
  covered : List String
  uncovered : List String
  componentsByResource : List (String × List String)

/-- Insertion into a Go `map[string]bool` used as a set, modelled as an
insertion-ordered list. -/
def insertSet (l : List String) (s : String) : List String :=
  if s ∈ l then l else l ++ [s]

/-- `componentsByResource[addr] = append(componentsByResource[addr], id)`. -/
def appendAt : List (String × List String) → String → String → List (String × List String)
  | [], addr, id => [(addr, [id])]
  | (k, v) :: rest, addr, id =>
    if k = addr then (k, v ++ [id]) :: rest else (k, v) :: appendAt rest addr id

/-- `Engine.resolveComponentDependencies`: the component ids of every
dependency address already processed. -/
def resolveComponentDependencies (node : GraphNode)
    (lookup : List (String × List String)) : List String :=
  node.Dependencies.foldl
    (fun deps depAddr =>
      match lookup.lookup depAddr with
      | some compIDs => deps ++ compIDs
      | none => deps) []

/-- The per-component inner loop of `Engine.Decompose`: generate the id when
unset (`addr-i`), stamp the resource address, resolve dependencies, append
the component, and record it for later dependency resolution. -/
def processComponents (node : GraphNode) :
    ℕ → DecompState → List BillingComponent → DecompState
  | _, st, [] => st
  | i, st, comp :: rest =>
    let comp :=
      if comp.ID = "" then
        { comp with ID := node.Resource.Address ++ "-" ++ toString i }
      else comp
    let comp :=
      { comp with
        ResourceAddr := node.Resource.Address
        DependsOn := resolveComponentDependencies node st.componentsByResource }
    let st :=
      { st with
        Components := st.Components ++ [comp]
        ComponentsCreated := st.ComponentsCreated + 1
        componentsByResource :=
          appendAt st.componentsByResource node.Resource.Address comp.ID }
    processComponents node (i + 1) st rest

/-- One iteration of the node loop of `Engine.Decompose`: data-mode nodes
are skipped; a node with no mapper records an uncovered type and a
non-critical mapping error and produces no component; a mapped node
appends its mapper's errors and processes its components. -/
def decomposeStep (e : Engine) (st : DecompState) (node : GraphNode) : DecompState :=
  let st := { st with ResourcesProcessed := st.ResourcesProcessed + 1 }
  if node.Resource.Mode = "data" then
    { st with ResourcesSkipped := st.ResourcesSkipped + 1 }
  else
    match e.findMapper node.Resource.ResType with
    | none =>
      { st with
        uncovered := insertSet st.uncovered node.Resource.ResType
        MappingErrors := st.MappingErrors ++
          [⟨node.Resource.Address, node.Resource.ResType,
            "no mapper registered for resource type", false⟩] }
    | some mapper =>
      let mapped := mapper.mapToBillingComponents node
      let st := { st with MappingErrors := st.MappingErrors ++ mapped.2 }
      if 0 < mapped.1.length then
        let st :=
          { st with
            ResourcesMapped := st.ResourcesMapped + 1
            covered := insertSet st.covered node.Resource.ResType }
        processComponents node 0 st mapped.1
      else st

/-- The initial loop state of `Engine.Decompose`. -/
def initState : DecompState := ⟨[], [], 0, 0, 0, 0, [], [], []⟩

/-- `Engine.Decompose` over the topologically sorted node sequence (the
`graph.TopologicalSort` call and its cycle error are upstream of the loop
embedded here). -/
def Engine.Decompose (e : Engine) (nodes : List GraphNode) : DecompositionResult :=
  let st := nodes.foldl (decomposeStep e) initState
  { Components := st.Components
    MappingErrors := st.MappingErrors
    ResourcesProcessed := st.ResourcesProcessed
    ResourcesMapped := st.ResourcesMapped
    ResourcesSkipped := st.ResourcesSkipped
    ComponentsCreated := st.ComponentsCreated
    CoveredTypes := st.covered
    UncoveredTypes := st.uncovered.filter fun t => t ∉ st.covered }

end Billing

namespace SemanticMapper

/-- `graph.Resource` as the semantic-engine mapper registry reads it.  The
Go field `Type` is called `ResType`. -/
structure Resource where
  Address : String
  ResType : String
  Provider : String

/-- `api.BillingComponent` of the semantic-engine variant: the registry
constructs it with `ResourceAddress`, `Provider`, `UsageType` and
`MappingError`; the remaining fields keep their zero values. -/
structure BillingComponent where
  ResourceAddress : String
  ComponentType : String
  Provider : String
  UsageType : String
  Lifecycle : String
  VarianceProfile : String
  Dependencies : List String
  LookupAttributes : List (String × String)
  MappingError : String

/-- `mapper.Registry` from `semantic-engine/mapper/registry.go`: mappers by
resource type; a mapper maps a resource to components or fails. -/
structure Registry where
  Mappers : List (String × (Resource → Except String (List BillingComponent)))

/-- `Registry.MapResource`: fail-closed — an unregistered resource type
returns one synthetic component tagged `UNSUPPORTED_RESOURCE` carrying a
mapping error, rather than being skipped. -/
def Registry.MapResource (r : Registry) (res : Resource) :
    Except String (List BillingComponent) :=
  match r.Mappers.lookup res.ResType with
  | none =>
    .ok [{ ResourceAddress := res.Address
           ComponentType := ""
           Provider := res.Provider
           UsageType := "UNSUPPORTED_RESOURCE"
           Lifecycle := ""
           VarianceProfile := ""
           Dependencies := []
           LookupAttributes := []
           MappingError := "No mapper registered for resource type: " ++ res.ResType }]
  | some mapper => mapper res

end SemanticMapper

namespace Billing

theorem processComponents_errors (node : GraphNode) :
    ∀ (comps : List BillingComponent) (i : ℕ) (st : DecompState),
      (processComponents node i st comps).MappingErrors = st.MappingErrors := by
  intro comps
  induction comps with
  | nil => intro i st; rfl
  | cons x rest ih =>
    intro i st
    simp only [processComponents]
    rw [ih]

theorem processComponents_components (node : GraphNode) :
    ∀ (comps : List BillingComponent) (i : ℕ) (st : DecompState)
      (c : BillingComponent),
      c ∈ (processComponents node i st comps).Components →
      c ∈ st.Components ∨ c.ResourceAddr = node.Resource.Address := by
  intro comps
  induction comps with
  | nil => intro i st c hc; exact Or.inl hc
  | cons x rest ih =>
    intro i st c hc
    simp only [processComponents] at hc
    rcases ih _ _ _ hc with hmem | haddr
    · rcases List.mem_append.mp hmem with h | h
      · exact Or.inl h
      · right
        rw [List.mem_singleton.mp h]
    · exact Or.inr haddr

theorem decomposeStep_errors_mono (e : Engine) (node : GraphNode)
    (st : DecompState) {err : MappingError} (h : err ∈ st.MappingErrors) :
    err ∈ (decomposeStep e st node).MappingErrors := by
  unfold decomposeStep
  by_cases hdata : node.Resource.Mode = "data"
  · simpa [hdata] using h
  · cases hm : e.findMapper node.Resource.ResType with
    | none =>
      simp only [hdata, if_false, hm, List.mem_append]
      exact Or.inl h
    | some mapper =>
      by_cases hlen : 0 < (mapper.mapToBillingComponents node).1.length
      · simp only [hdata, if_false, hm, hlen, if_true, processComponents_errors,
          List.mem_append]
        exact Or.inl h
      · simp only [hdata, if_false, hm, hlen, if_false, List.mem_append]
        exact Or.inl h

theorem decomposeStep_adds_error (e : Engine) (node : GraphNode)
    (st : DecompState) (hmode : ¬ node.Resource.Mode = "data")
    (hmap : e.findMapper node.Resource.ResType = none) :
    (⟨node.Resource.Address, node.Resource.ResType,
      "no mapper registered for resource type", false⟩ : MappingError)
      ∈ (decomposeStep e st node).MappingErrors := by
  simp [decomposeStep, hmode, hmap]

theorem decomposeStep_components (e : Engine) (node : GraphNode)
    (st : DecompState) (c : BillingComponent)
    (hc : c ∈ (decomposeStep e st node).Components) :
    c ∈ st.Components ∨
      ((e.findMapper node.Resource.ResType).isSome ∧
        c.ResourceAddr = node.Resource.Address) := by
  unfold decomposeStep at hc
  by_cases hdata : node.Resource.Mode = "data"
  · simp only [hdata, if_true] at hc
    exact Or.inl hc
  · cases hm : e.findMapper node.Resource.ResType with
    | none =>
      simp only [hdata, if_false, hm] at hc
      exact Or.inl hc
    | some mapper =>
      simp only [hdata, if_false, hm] at hc
      by_cases hlen : 0 < (mapper.mapToBillingComponents node).1.length
      · simp only [hlen, if_true] at hc
        rcases processComponents_components node _ _ _ _ hc with h | h
        · exact Or.inl h
        · exact Or.inr ⟨rfl, h⟩
      · simp only [hlen, if_false] at hc
        exact Or.inl hc

theorem foldl_errors_mono (e : Engine) :
    ∀ (nodes : List GraphNode) (st : DecompState) {err : MappingError},
      err ∈ st.MappingErrors →
      err ∈ (nodes.foldl (decomposeStep e) st).MappingErrors := by
  intro nodes
  induction nodes with
  | nil => intro st err h; exact h
  | cons n rest ih =>
    intro st err h
    exact ih _ (decomposeStep_errors_mono e n st h)

theorem foldl_unmapped_error (e : Engine) :
    ∀ (nodes : List GraphNode) (st : DecompState) (node : GraphNode),
      node ∈ nodes → ¬ node.Resource.Mode = "data" →
      e.findMapper node.Resource.ResType = none →
      (⟨node.Resource.Address, node.Resource.ResType,
        "no mapper registered for resource type", false⟩ : MappingError)
        ∈ (nodes.foldl (decomposeStep e) st).MappingErrors := by
  intro nodes
  induction nodes with
  | nil => intro st node h; exact absurd h (List.not_mem_nil node)
  | cons n rest ih =>
    intro st node hmem hmode hmap
    rcases List.mem_cons.mp hmem with rfl | hmem
    · exact foldl_errors_mono e rest _ (decomposeStep_adds_error e node st hmode hmap)
    · exact ih _ node hmem hmode hmap

theorem foldl_components (e : Engine) :
    ∀ (nodes : List GraphNode) (st : DecompState) (c : BillingComponent),
      c ∈ (nodes.foldl (decomposeStep e) st).Components →
      c ∈ st.Components ∨
        ∃ n ∈ nodes, (e.findMapper n.Resource.ResType).isSome ∧
          c.ResourceAddr = n.Resource.Address := by
  intro nodes
  induction nodes with
  | nil => intro st c hc; exact Or.inl hc
  | cons n rest ih =>
    intro st c hc
    rcases ih _ _ hc with hmem | ⟨m, hm, hsome, haddr⟩
    · rcases decomposeStep_components e n st c hmem with h | ⟨hsome, haddr⟩
      · exact Or.inl h
      · exact Or.inr ⟨n, List.mem_cons_self n rest, hsome, haddr⟩
    · exact Or.inr ⟨m, List.mem_cons_of_mem n hm, hsome, haddr⟩

end Billing

/-- C6 counterexample: an engine with no registered mappers decomposing a
single non-deleted managed resource of an unmapped type emits no billing
component at all — the output component list is empty, not a singleton
synthetic `UNSUPPORTED_RESOURCE` component — while a non-critical mapping
error is recorded. -/
theorem c6_counterexample :
    (Billing.Engine.Decompose ⟨[], ⟨[], []⟩⟩
        [⟨⟨"aws_foo.bar", "aws_foo", "managed"⟩, []⟩]).Components = [] ∧
    (Billing.Engine.Decompose ⟨[], ⟨[], []⟩⟩
        [⟨⟨"aws_foo.bar", "aws_foo", "managed"⟩, []⟩]).ResourcesProcessed = 1 ∧
    (Billing.Engine.Decompose ⟨[], ⟨[], []⟩⟩
        [⟨⟨"aws_foo.bar", "aws_foo", "managed"⟩, []⟩]).MappingErrors =
      [⟨"aws_foo.bar", "aws_foo", "no mapper registered for resource type", false⟩] := by
  refine ⟨?_, ?_, ?_⟩ <;>
    simp [Billing.Engine.Decompose, Billing.decomposeStep, Billing.initState,
      Billing.Engine.findMapper, Billing.MapperRegistry.GetMapper]

/-- C6 (amended): in `Engine.Decompose` a non-deleted node whose type
matches no mapper is never silently skipped, but it is fail-closed through
the error list, not the component list: a non-critical mapping error with
reason `no mapper registered for resource type` is recorded for the node
and no billing component is emitted for it.  The synthetic component tagged
`UNSUPPORTED_RESOURCE` is emitted only by the parallel semantic-engine
variant (`Registry.MapResource`), which returns exactly one such component
for an unregistered resource type. -/
theorem c6_unmapped_resource (e : Billing.Engine)
    (nodes : List Billing.GraphNode) (node : Billing.GraphNode)
    (hmem : node ∈ nodes) (hmode : ¬ node.Resource.Mode = "data")
    (hmap : e.findMapper node.Resource.ResType = none)
    (haddr : ∀ other ∈ nodes,
      other.Resource.Address = node.Resource.Address → other = node) :
    ((⟨node.Resource.Address, node.Resource.ResType,
      "no mapper registered for resource type", false⟩ : Billing.MappingError)
        ∈ (e.Decompose nodes).MappingErrors ∧
     ∀ c ∈ (e.Decompose nodes).Components,
       c.ResourceAddr ≠ node.Resource.Address) ∧
    (∀ (r : SemanticMapper.Registry) (res : SemanticMapper.Resource),
      r.Mappers.lookup res.ResType = none →
      r.MapResource res = .ok
        [⟨res.Address, "", res.Provider, "UNSUPPORTED_RESOURCE", "", "", [], [],
          "No mapper registered for resource type: " ++ res.ResType⟩]) := by
  refine ⟨⟨?_, ?_⟩, ?_⟩
  · exact Billing.foldl_unmapped_error e nodes Billing.initState node hmem hmode hmap
  · intro c hc heq
    rcases Billing.foldl_components e nodes Billing.initState c hc with h | ⟨n, hn, hsome, haddr2⟩
    · exact absurd h (List.not_mem_nil c)
    · have : n = node := haddr n hn (haddr2 ▸ heq)
      rw [this, hmap] at hsome
      exact absurd hsome (by simp)
  · intro r res hr
    simp [SemanticMapper.Registry.MapResource, hr]

/-- C6 witness: the amended statement applied to the concrete one-node graph
of the counexample engine, discharging every hypothesis there. -/
theorem c6_witness :
    ((⟨"aws_foo.bar", "aws_foo",
      "no mapper registered for resource type", false⟩ : Billing.MappingError)
        ∈ (Billing.Engine.Decompose ⟨[], ⟨[], []⟩⟩
            [⟨⟨"aws_foo.bar", "aws_foo", "managed"⟩, []⟩]).MappingErrors ∧
     ∀ c ∈ (Billing.Engine.Decompose ⟨[], ⟨[], []⟩⟩
        [⟨⟨"aws_foo.bar", "aws_foo", "managed"⟩, []⟩]).Components,
       c.ResourceAddr ≠ "aws_foo.bar") ∧
    (∀ (r : SemanticMapper.Registry) (res : SemanticMapper.Resource),
      r.Mappers.lookup res.ResType = none →
      r.MapResource res = .ok
        [⟨res.Address, "", res.Provider, "UNSUPPORTED_RESOURCE", "", "", [], [],
          "No mapper registered for resource type: " ++ res.ResType⟩]) :=
  c6_unmapped_resource ⟨[], ⟨[], []⟩⟩
    [⟨⟨"aws_foo.bar", "aws_foo", "managed"⟩, []⟩]
    ⟨⟨"aws_foo.bar", "aws_foo", "managed"⟩, []⟩
    (List.mem_singleton.mpr rfl) (by decide) rfl
    (fun other ho _ => List.mem_singleton.mp ho)

namespace Estimation

/-- A resolved `clickhouse` rate as `estimateComponent` consumes it: price,
snapshot id (uuid modelled as a natural, `uuid.Nil` as 0), source tag and
rate confidence. -/
structure Rate where
  Price : ℚ
  SnapshotID : ℕ
  Source : String
  Confidence : ℚ
deriving DecidableEq

/-- The three outcomes of `pricingStore.ResolveRate`: a transport error, no
matching rate (`nil, nil`), or a rate. -/
inductive ResolveOutcome
  | err (msg : String)
  | notFound
  | found (rate : Rate)

/-- The estimation `Engine` of the `decision/estimation` package: the
pricing store and the optional carbon store are its two collaborators,
modelled as the functions the engine calls on them.  `GetIntensity` either
fails (`none`) or returns an intensity. -/
structure Engine where
  resolveRate : Billing.BillingComponent → String → ResolveOutcome
  carbonStore : Option (String → String → Option ℚ)

/-- `EstimationRequest` from the estimation engine. -/
structure EstimationRequest where
  Components : List Billing.BillingComponent
  Environment : String
  PricingAlias : String
  IncludeCarbon : Bool
  IncludeFormulas : Bool

/-- `CostDriver` from the estimation engine.  The presentation-only
`Formula` string (built only under `IncludeFormulas`) is not modelled. -/
structure CostDriver where
  ID : String
  ComponentID : String
  ResourceAddr : String
  Cloud : String
  Service : String
  ProductFamily : String
  Region : String
  Description : String
  MonthlyCostP50 : ℚ
  MonthlyCostP90 : ℚ
  UnitPrice : ℚ
  UsageP50 : ℚ
  UsageP90 : ℚ
  UsageUnit : String
  CarbonKgCO2 : ℚ
  Confidence : ℚ
  IsSymbolic : Bool
  Reason : String
  SnapshotID : ℕ
  Source : String
deriving DecidableEq

/-- `EstimationError` from the estimation engine. -/
structure EstimationError where
  ComponentID : String
  ResourceAddr : String
  Message : String
  IsCritical : Bool
deriving DecidableEq

/-- `AuditTrail` from the estimation engine; the wall-clock `EstimatedAt`
timestamp is not modelled. -/
structure AuditTrail where
  Environment : String
  PricingAlias : String
  SnapshotsUsed : List (String × ℕ)
deriving DecidableEq

/-- `EstimationResult` from the estimation engine. -/
structure EstimationResult where
  MonthlyCostP50 : ℚ
  MonthlyCostP90 : ℚ
  HourlyCostP50 : ℚ
  CarbonKgCO2 : ℚ
  CarbonByRegion : List (String × ℚ)
  CostDrivers : List CostDriver
  Confidence : ℚ
  IsIncomplete : Bool
  Errors : List EstimationError
  Warnings : List String
  AuditTrail : AuditTrail
  ComponentsProcessed : ℕ
  ComponentsEstimated : ℕ
  ComponentsSymbolic : ℕ
deriving DecidableEq

/-- `shopspring` `decimal.Round(4)`: round half away from zero at 4
fractional digits. -/
def round4 (x : ℚ) : ℚ :=
  if 0 ≤ x then ((⌊x * 10000 + 1/2⌋ : ℤ) : ℚ) / 10000
  else -(((⌊-x * 10000 + 1/2⌋ : ℤ) : ℚ) / 10000)

/-- `Engine.billingPeriodToUnit`. -/
def billingPeriodToUnit (period : String) : String :=
  match period with
  | "hourly" => "hours"
  | "monthly" => "GB-month"
  | "per_request" => "requests"
  | "per_gb" => "GB"
  | _ => "units"

/-- `Engine.estimateCarbonForComponent`: a per-service power draw times 730
hours times the regional intensity over 1000. -/
def estimateCarbonForComponent (comp : Billing.BillingComponent)
    (intensityGCO2 : ℚ) : ℚ :=
  let powerKw : ℚ :=
    match comp.Service with
    | "AmazonEC2" => 0.1
    | "AmazonRDS" => 0.2
    | "AWSLambda" => 0.01
    | _ => 0.05
  let energyKwh := powerKw * 730
  energyKwh * intensityGCO2 / 1000

/-- `Engine.createSymbolicDriver`: zero costs, zero confidence, symbolic
flag and the reason; the usage fields keep their zero values. -/
def createSymbolicDriver (comp : Billing.BillingComponent) (reason : String) :
    CostDriver :=
  { ID := "driver-" ++ comp.ID
    ComponentID := comp.ID
    ResourceAddr := comp.ResourceAddr
    Cloud := comp.Cloud
    Service := comp.Service
    ProductFamily := comp.ProductFamily
    Region := comp.Region
    Description := comp.Description
    MonthlyCostP50 := 0
    MonthlyCostP90 := 0
    UnitPrice := 0
    UsageP50 := 0
    UsageP90 := 0
    UsageUnit := ""
    CarbonKgCO2 := 0
    Confidence := 0
    IsSymbolic := true
    Reason := reason
    SnapshotID := 0
    Source := "" }

/-- `Engine.estimateComponent`: seeds the driver from the component, asks
the pricing store for a rate, and either reports the store error upward, or
marks the driver symbolic in place on a missing rate (keeping the
variance-profile confidence), or computes the rounded costs, the minimum of
component and rate confidence, and optionally carbon. -/
def estimateComponent (e : Engine) (comp : Billing.BillingComponent)
    (req : EstimationRequest) : CostDriver × Option String :=
  let driver : CostDriver :=
    { ID := "driver-" ++ comp.ID
      ComponentID := comp.ID
      ResourceAddr := comp.ResourceAddr
      Cloud := comp.Cloud
      Service := comp.Service
      ProductFamily := comp.ProductFamily
      Region := comp.Region
      Description := comp.Description
      MonthlyCostP50 := 0
      MonthlyCostP90 := 0
      UnitPrice := 0
      UsageP50 := comp.VarianceProfile.P50Usage
      UsageP90 := comp.VarianceProfile.P90Usage
      UsageUnit := ""
      CarbonKgCO2 := 0
      Confidence := comp.VarianceProfile.Confidence
      IsSymbolic := false
      Reason := ""
      SnapshotID := 0
      Source := "" }
  match e.resolveRate comp req.PricingAlias with
  | .err msg => (driver, some ("pricing resolution failed: " ++ msg))
  | .notFound =>
    ({ driver with IsSymbolic := true, Reason := "no pricing data available" },
     none)
  | .found rate =>
    let driver :=
      { driver with
        UnitPrice := rate.Price
        SnapshotID := rate.SnapshotID
        Source := rate.Source
        Confidence := min driver.Confidence rate.Confidence
        MonthlyCostP50 := round4 (rate.Price * comp.VarianceProfile.P50Usage)
        MonthlyCostP90 := round4 (rate.Price * comp.VarianceProfile.P90Usage)
        UsageUnit := billingPeriodToUnit comp.BillingPeriod }
    let driver :=
      if req.IncludeCarbon then
        match e.carbonStore with
        | some store =>
          match store comp.Cloud comp.Region with
          | some ci =>
            if 0 < ci then
              { driver with CarbonKgCO2 := estimateCarbonForComponent comp ci }
            else driver
          | none => driver
        | none => driver
      else driver
    (driver, none)

/-- `CarbonByRegion[region] += v` on the association-list model of the Go
map. -/
def addAt : List (String × ℚ) → String → ℚ → List (String × ℚ)
  | [], region, v => [(region, v)]
  | (k, x) :: rest, region, v =>
    if k = region then (k, x + v) :: rest else (k, x) :: addAt rest region v

/-- `SnapshotsUsed[region] = id` on the association-list model of the Go
map. -/
def setAt : List (String × ℕ) → String → ℕ → List (String × ℕ)
  | [], region, id => [(region, id)]
  | (k, x) :: rest, region, id =>
    if k = region then (k, id) :: rest else (k, x) :: setAt rest region id

/-- Insertion step of the `sort.Slice` descending sort on
`MonthlyCostP50`. -/
def insertCostDriverDesc (d : CostDriver) : List CostDriver → List CostDriver
  | [] => [d]
  | x :: xs =>
    if x.MonthlyCostP50 < d.MonthlyCostP50 then d :: x :: xs
    else x :: insertCostDriverDesc d xs

/-- The descending sort of the cost drivers by P50 cost. -/
def sortCostDriversDesc (l : List CostDriver) : List CostDriver :=
  l.foldr insertCostDriverDesc []

/-- One iteration of the component loop of `Engine.Estimate`, threading the
result under construction and the running minimum confidence. -/
def estimateStep (e : Engine) (req : EstimationRequest)
    (st : EstimationResult × ℚ) (comp : Billing.BillingComponent) :
    EstimationResult × ℚ :=
  let result := { st.1 with ComponentsProcessed := st.1.ComponentsProcessed + 1 }
  let outcome := estimateComponent e comp req
  let result :=
    match outcome.2 with
    | some msg =>
      { result with
        Errors := result.Errors ++
          [(⟨comp.ID, comp.ResourceAddr, msg, false⟩ : EstimationError)]
        ComponentsSymbolic := result.ComponentsSymbolic + 1 }
    | none => result
  let driver :=
    match outcome.2 with
    | some msg => createSymbolicDriver comp msg
    | none => outcome.1
  let result :=
    { result with
      MonthlyCostP50 := result.MonthlyCostP50 + driver.MonthlyCostP50
      MonthlyCostP90 := result.MonthlyCostP90 + driver.MonthlyCostP90
      CarbonKgCO2 := result.CarbonKgCO2 + driver.CarbonKgCO2 }
  let result :=
    if driver.Region ≠ "" ∧ 0 < driver.CarbonKgCO2 then
      { result with
        CarbonByRegion := addAt result.CarbonByRegion driver.Region driver.CarbonKgCO2 }
    else result
  let minConfidence :=
    if driver.Confidence < st.2 then driver.Confidence else st.2
  let result :=
    if driver.SnapshotID ≠ 0 then
      { result with
        AuditTrail :=
          { result.AuditTrail with
            SnapshotsUsed :=
              setAt result.AuditTrail.SnapshotsUsed driver.Region driver.SnapshotID } }
    else result
  let result :=
    if ¬ driver.IsSymbolic then
      { result with ComponentsEstimated := result.ComponentsEstimated + 1 }
    else result
  ({ result with CostDrivers := result.CostDrivers ++ [driver] }, minConfidence)

/-- `Engine.Estimate` from the estimation engine: processes each component,
accumulates totals and the minimum confidence, derives the hourly cost,
marks the result incomplete when symbolic components were counted — and,
despite the `Fail-closed: if incomplete, zero out totals` comment in the
source, only appends a warning without zeroing any total — then sorts the
drivers by P50 cost descending. -/
def Estimate (e : Engine) (req0 : EstimationRequest) : EstimationResult :=
  let result0 : EstimationResult :=
    { MonthlyCostP50 := 0
      MonthlyCostP90 := 0
      HourlyCostP50 := 0
      CarbonKgCO2 := 0
      CarbonByRegion := []
      CostDrivers := []
      Confidence := 1
      IsIncomplete := false
      Errors := []
      Warnings := []
      AuditTrail := ⟨req0.Environment, req0.PricingAlias, []⟩
      ComponentsProcessed := 0
      ComponentsEstimated := 0
      ComponentsSymbolic := 0 }
  let req :=
    if req0.PricingAlias = "" then { req0 with PricingAlias := "default" }
    else req0
  let st := req.Components.foldl (estimateStep e req) (result0, 1)
  let result := st.1
  let result :=
    if ¬ result.MonthlyCostP50 = 0 then
      { result with HourlyCostP50 := result.MonthlyCostP50 / 730 }
    else result
  let result := { result with Confidence := st.2 }
  let result :=
    if 0 < result.ComponentsSymbolic then
      { result with
        IsIncomplete := true
        Warnings := result.Warnings ++
          [toString result.ComponentsSymbolic ++ " components could not be priced"] }
    else result
  let result :=
    if result.IsIncomplete then
      { result with
        Warnings := result.Warnings ++
          ["Totals may be incomplete due to missing pricing data"] }
    else result
  { result with CostDrivers := sortCostDriversDesc result.CostDrivers }

/-- The driver a component contributes to the result: the estimated driver
when `estimateComponent` succeeds, the symbolic replacement driver when it
reports an error. -/
def driverOf (e : Engine) (req : EstimationRequest)
    (comp : Billing.BillingComponent) : CostDriver :=
  match (estimateComponent e comp req).2 with
  | some msg => createSymbolicDriver comp msg
  | none => (estimateComponent e comp req).1

/-- 1 when a component's price resolution reported an error, else 0 — the
increment applied to `ComponentsSymbolic`. -/
def symbolicInc (e : Engine) (req : EstimationRequest)
    (comp : Billing.BillingComponent) : ℕ :=
  match (estimateComponent e comp req).2 with
  | some _ => 1
  | none => 0

theorem estimateStep_proj (e : Engine) (req : EstimationRequest)
    (st : EstimationResult × ℚ) (comp : Billing.BillingComponent) :
    (estimateStep e req st comp).1.CostDrivers =
      st.1.CostDrivers ++ [driverOf e req comp] ∧
    (estimateStep e req st comp).2 =
      (if (driverOf e req comp).Confidence < st.2
       then (driverOf e req comp).Confidence else st.2) ∧
    (estimateStep e req st comp).1.MonthlyCostP50 =
      st.1.MonthlyCostP50 + (driverOf e req comp).MonthlyCostP50 ∧
    (estimateStep e req st comp).1.ComponentsSymbolic =
      st.1.ComponentsSymbolic + symbolicInc e req comp ∧
    (estimateStep e req st comp).1.IsIncomplete = st.1.IsIncomplete := by
  cases houtcome : (estimateComponent e comp req).2 with
  | none =>
    unfold estimateStep driverOf symbolicInc
    simp only [houtcome]
    repeat' split
    all_goals simp
  | some msg =>
    unfold estimateStep driverOf symbolicInc
    simp only [houtcome]
    repeat' split
    all_goals simp

theorem foldl_estimate_proj (e : Engine) (req : EstimationRequest) :
    ∀ (comps : List Billing.BillingComponent) (st : EstimationResult × ℚ),
      (comps.foldl (estimateStep e req) st).1.CostDrivers =
        st.1.CostDrivers ++ comps.map (driverOf e req) ∧
      (comps.foldl (estimateStep e req) st).2 =
        (comps.map fun c => (driverOf e req c).Confidence).foldl
          (fun m x => if x < m then x else m) st.2 ∧
      (comps.foldl (estimateStep e req) st).1.MonthlyCostP50 =
        st.1.MonthlyCostP50 +
          (comps.map fun c => (driverOf e req c).MonthlyCostP50).sum ∧
      (comps.foldl (estimateStep e req) st).1.ComponentsSymbolic =
        st.1.ComponentsSymbolic + (comps.map (symbolicInc e req)).sum ∧
      (comps.foldl (estimateStep e req) st).1.IsIncomplete =
        st.1.IsIncomplete := by
  intro comps
  induction comps with
  | nil => intro st; simp
  | cons c rest ih =>
    intro st
    rcases estimateStep_proj e req st c with ⟨h1, h2, h3, h4, h5⟩
    rcases ih (estimateStep e req st c) with ⟨g1, g2, g3, g4, g5⟩
    refine ⟨?_, ?_, ?_, ?_, ?_⟩
    · simp only [List.foldl_cons, g1, h1, List.map_cons, List.append_assoc,
        List.singleton_append]
    · simp only [List.foldl_cons, g2, h2, List.map_cons]
    · simp only [List.foldl_cons, g3, h3, List.map_cons, List.sum_cons]
      ring
    · simp only [List.foldl_cons, g4, h4, List.map_cons, List.sum_cons]
      omega
    · simp only [List.foldl_cons, g5, h5]

theorem Estimate_proj (e : Engine) (req : EstimationRequest)
    (halias : ¬ req.PricingAlias = "") :
    (Estimate e req).CostDrivers =
      sortCostDriversDesc (req.Components.map (driverOf e req)) ∧
    (Estimate e req).Confidence =
      (req.Components.map fun c => (driverOf e req c).Confidence).foldl
        (fun m x => if x < m then x else m) 1 ∧
    (Estimate e req).MonthlyCostP50 =
      (req.Components.map fun c => (driverOf e req c).MonthlyCostP50).sum ∧
    (Estimate e req).ComponentsSymbolic =
      (req.Components.map (symbolicInc e req)).sum ∧
    (Estimate e req).IsIncomplete =
      decide (0 < (req.Components.map (symbolicInc e req)).sum) := by
  unfold Estimate
  simp only [halias, if_false]
  rcases foldl_estimate_proj e req req.Components
    (⟨0, 0, 0, 0, [], [], 1, false, [], [],
      ⟨req.Environment, req.PricingAlias, []⟩, 0, 0, 0⟩, 1) with ⟨g1, g2, g3, g4, g5⟩
  refine ⟨?_, ?_, ?_, ?_, ?_⟩ <;>
    · repeat' split
      all_goals simp_all [g1, g2, g3, g4, g5]

end Estimation

/-- A priced compute component (`P50 = P90 = 1` hour, confidence `0.9`). -/
def compC1a : Billing.BillingComponent :=
  ⟨"a", "aws_instance.web", "aws", "AmazonEC2", "Compute Instance",
   "us-east-1", "BoxUsage", "hourly", [],
   ⟨730, 584, 730, 1, 1, 0.9, 0.1, []⟩, "EC2 instance", [], []⟩

/-- A component whose price resolution fails with a store error. -/
def compC1b : Billing.BillingComponent :=
  ⟨"b", "aws_instance.db", "aws", "AmazonRDS", "Database Instance",
   "us-east-1", "BoxUsage", "hourly", [],
   ⟨730, 584, 730, 1, 1, 0.9, 0.1, []⟩, "RDS instance", [], []⟩

/-- An engine pricing component `a` at `$10` and failing on everything
else. -/
def engineC1 : Estimation.Engine :=
  ⟨fun comp _ =>
    if comp.ID = "a" then .found ⟨10, 7, "aws_pricing", 0.9⟩
    else .err "store unavailable",
   none⟩

/-- The two-component estimation request of the C1 failing input. -/
def reqC1 : Estimation.EstimationRequest :=
  ⟨[compC1a, compC1b], "prod", "default", false, false⟩

/-- C1: the fail-closed zeroing the claim states is broken in both cited
variants.  `Engine.Estimate` on a request with one `$10` component and one
component whose price resolution fails marks the result incomplete and
keeps the driver breakdown, but the totals are not zeroed
(`MonthlyCostP50 = 10 != 0`), despite the source's own
`Fail-closed: if incomplete, zero out totals` comment; and the fail-closed
`CalculateFromComponents` variant zeroes the totals but nils the driver
breakdown on a missing price. -/
theorem c1_incomplete_totals_not_zeroed :
    ((Estimation.Estimate engineC1 reqC1).IsIncomplete = true ∧
     (Estimation.Estimate engineC1 reqC1).MonthlyCostP50 = 10 ∧
     (Estimation.Estimate engineC1 reqC1).MonthlyCostP50 ≠ 0 ∧
     ((Estimation.Estimate engineC1 reqC1).CostDrivers.map
       fun d => d.ComponentID) = ["a", "b"]) ∧
    ((Calc.CalculateFromComponents
        ⟨[⟨"c1", "aws_instance.a", "compute", "on_demand", "hourly",
           ⟨"stable", "none", 0.8⟩, [], [], none⟩], []⟩
        ⟨[⟨"c1", "hours", "hours", 10, 12, 0.8, []⟩], 0, "dev"⟩
        ⟨[], []⟩).IsIncomplete = true ∧
     (Calc.CalculateFromComponents
        ⟨[⟨"c1", "aws_instance.a", "compute", "on_demand", "hourly",
           ⟨"stable", "none", 0.8⟩, [], [], none⟩], []⟩
        ⟨[⟨"c1", "hours", "hours", 10, 12, 0.8, []⟩], 0, "dev"⟩
        ⟨[], []⟩).TotalCost.P50 = 0 ∧
     (Calc.CalculateFromComponents
        ⟨[⟨"c1", "aws_instance.a", "compute", "on_demand", "hourly",
           ⟨"stable", "none", 0.8⟩, [], [], none⟩], []⟩
        ⟨[⟨"c1", "hours", "hours", 10, 12, 0.8, []⟩], 0, "dev"⟩
        ⟨[], []⟩).Drivers = []) := by
  constructor
  · simp [Estimation.Estimate, Estimation.estimateStep,
      Estimation.estimateComponent, Estimation.createSymbolicDriver,
      Estimation.billingPeriodToUnit,
      Estimation.sortCostDriversDesc, Estimation.insertCostDriverDesc,
      Estimation.addAt, Estimation.setAt, engineC1, reqC1, compC1a, compC1b,
      show ((9:ℚ)/10) < 1 from by norm_num,
      show ¬ (0:ℚ) < 0 from lt_irrefl 0,
      show (0:ℚ) < 10 from by norm_num,
      show Estimation.round4 ((10:ℚ) * 1) = 10 from by
        norm_num [Estimation.round4],
      show Estimation.round4 (10:ℚ) = 10 from by
        norm_num [Estimation.round4],
      show ((10:ℚ) ≠ 0) from by norm_num]
  · simp [Calc.CalculateFromComponents, Calc.calcAccOf, Calc.calcStep,
      Calc.usageLookup, Calc.priceLookup, List.find?]

/-- A component with variance-profile confidence `0.8` whose price lookup
finds no rate. -/
def compC2 : Billing.BillingComponent :=
  ⟨"c", "aws_instance.api", "aws", "AmazonEC2", "Compute Instance",
   "us-east-1", "BoxUsage", "hourly", [],
   ⟨730, 584, 730, 2, 2, 0.8, 0.1, []⟩, "EC2 instance", [], []⟩

/-- An engine whose price lookup returns not-found for everything. -/
def engineC2 : Estimation.Engine := ⟨fun _ _ => .notFound, none⟩

/-- The single-component request of the C2 failing input. -/
def reqC2 : Estimation.EstimationRequest :=
  ⟨[compC2], "prod", "default", false, false⟩

/-- C2: a price-not-found component yields a driver with the symbolic flag,
zero costs and a recorded reason, but — against the claim and the
data-model invariant `symbolic implies confidence = 0` honoured by
`createSymbolicDriver` in the same file — its confidence stays at the
variance-profile value `0.8`, and the estimation is not marked incomplete
(the symbolic counter that drives `IsIncomplete` is not incremented on this
path). -/
theorem c2_price_not_found_driver :
    ((Estimation.Estimate engineC2 reqC2).CostDrivers.map fun d =>
      (d.IsSymbolic, d.Confidence, d.MonthlyCostP50, d.MonthlyCostP90, d.Reason)) =
      [(true, 0.8, 0, 0, "no pricing data available")] ∧
    (Estimation.Estimate engineC2 reqC2).IsIncomplete = false ∧
    (Estimation.Estimate engineC2 reqC2).ComponentsSymbolic = 0 ∧
    (Estimation.Estimate engineC2 reqC2).Confidence = 0.8 := by
  simp [Estimation.Estimate, Estimation.estimateStep,
    Estimation.estimateComponent, Estimation.createSymbolicDriver,
    Estimation.billingPeriodToUnit, Estimation.sortCostDriversDesc,
    Estimation.insertCostDriverDesc, Estimation.addAt, Estimation.setAt,
    engineC2, reqC2, compC2,
    show ((8:ℚ)/10) < 1 from by norm_num,
    show (0.8:ℚ) < 1 from by norm_num,
    show ¬ (0:ℚ) < 0 from lt_irrefl 0]

/-- The low-confidence priced component of the C3 counterexample. -/
def compC3a : Billing.BillingComponent :=
  ⟨"a", "aws_instance.low", "aws", "AmazonEC2", "Compute Instance",
   "us-east-1", "BoxUsage", "hourly", [],
   ⟨730, 584, 730, 5, 5, 0.4, 0.1, []⟩, "EC2 instance", [], []⟩

/-- The high-confidence priced component of the C3 counterexample. -/
def compC3b : Billing.BillingComponent :=
  ⟨"b", "aws_instance.high", "aws", "AmazonEC2", "Compute Instance",
   "us-east-1", "BoxUsage", "hourly", [],
   ⟨730, 584, 730, 10, 10, 0.9, 0.1, []⟩, "EC2 instance", [], []⟩

/-- An engine pricing both C3 components at `$1` with rate confidences
matching the component confidences. -/
def engineC3x : Estimation.Engine :=
  ⟨fun comp _ =>
    if comp.ID = "a" then .found ⟨1, 3, "aws_pricing", 0.4⟩
    else .found ⟨1, 4, "aws_pricing", 0.9⟩,
   none⟩

/-- The completed two-component request of the C3 counterexample. -/
def reqC3x : Estimation.EstimationRequest :=
  ⟨[compC3a, compC3b], "prod", "default", false, false⟩

set_option maxHeartbeats 4000000 in
/-- C3 counterexample: a completed `Engine.Estimate` run with two
non-symbolic drivers of confidences `0.9` and `0.4` reports aggregate
confidence `0.4` — the minimum — while the geometric mean of the
per-component confidences is `0.6`, so the aggregate is not the geometric
mean. -/
theorem c3_counterexample :
    (Estimation.Estimate engineC3x reqC3x).IsIncomplete = false ∧
    (((Estimation.Estimate engineC3x reqC3x).CostDrivers.filter
        fun d => !d.IsSymbolic).map fun d => d.Confidence) = [0.9, 0.4] ∧
    (Estimation.Estimate engineC3x reqC3x).Confidence = 0.4 ∧
    Confidence.geomMean [(0.9 : ℝ), 0.4] = 0.6 ∧
    ¬ (((Estimation.Estimate engineC3x reqC3x).Confidence : ℝ) =
        Confidence.geomMean
          (((Estimation.Estimate engineC3x reqC3x).CostDrivers.filter
            fun d => !d.IsSymbolic).map fun d => (d.Confidence : ℝ))) := by
  have hgm : Confidence.geomMean [(0.9 : ℝ), 0.4] = 0.6 := by
    rw [Confidence.geomMean]
    rw [show ([(0.9 : ℝ), 0.4].prod) = 0.36 from by norm_num]
    rw [show ((1 : ℝ) / (([(0.9 : ℝ), 0.4].length : ℕ) : ℝ)) = 1/2 from by
      norm_num]
    rw [← Real.sqrt_eq_rpow]
    rw [show (0.36 : ℝ) = 0.6 ^ 2 from by norm_num]
    exact Real.sqrt_sq (by norm_num)
  have hp := Estimation.Estimate_proj engineC3x reqC3x (by simp [reqC3x])
  have heval :
      (Estimation.Estimate engineC3x reqC3x).IsIncomplete = false ∧
      ((Estimation.Estimate engineC3x reqC3x).CostDrivers.map
          fun d => (d.Confidence, d.IsSymbolic)) = [(0.9, false), (0.4, false)] ∧
      (Estimation.Estimate engineC3x reqC3x).Confidence = 0.4 := by
    refine ⟨?_, ?_, ?_⟩
    · rw [hp.2.2.2.2]
      simp [Estimation.symbolicInc, Estimation.estimateComponent,
        engineC3x, reqC3x, compC3a, compC3b]
    · rw [hp.1]
      simp [Estimation.sortCostDriversDesc, Estimation.insertCostDriverDesc,
        Estimation.driverOf, Estimation.estimateComponent,
        Estimation.createSymbolicDriver, Estimation.billingPeriodToUnit,
        engineC3x, reqC3x, compC3a, compC3b,
        show min (0.4:ℚ) 0.4 = 0.4 from min_self _,
        show min (0.9:ℚ) 0.9 = 0.9 from min_self _,
        show Estimation.round4 ((1:ℚ) * 5) = 5 from by
          norm_num [Estimation.round4],
        show Estimation.round4 ((1:ℚ) * 10) = 10 from by
          norm_num [Estimation.round4],
        show Estimation.round4 (5:ℚ) = 5 from by
          norm_num [Estimation.round4],
        show Estimation.round4 (10:ℚ) = 10 from by
          norm_num [Estimation.round4],
        show ((5:ℚ) < 10) from by norm_num,
        show ¬ ((10:ℚ) < 5) from by norm_num]
    · rw [hp.2.1]
      simp [Estimation.driverOf, Estimation.estimateComponent,
        Estimation.createSymbolicDriver, Estimation.billingPeriodToUnit,
        engineC3x, reqC3x, compC3a, compC3b,
        show min (0.4:ℚ) 0.4 = 0.4 from min_self _,
        show min (0.9:ℚ) 0.9 = 0.9 from min_self _,
        show (0.4:ℚ) < 1 from by norm_num,
        show ¬ (0.9:ℚ) < 0.4 from by norm_num]
  have hfilter :
      (((Estimation.Estimate engineC3x reqC3x).CostDrivers.filter
          fun d => !d.IsSymbolic).map fun d => d.Confidence) = [0.9, 0.4] := by
    have hmap := heval.2.1
    rcases hlist : (Estimation.Estimate engineC3x reqC3x).CostDrivers with
      _ | ⟨d1, _ | ⟨d2, rest⟩⟩ <;> rw [hlist] at hmap <;> simp at hmap
    rcases hmap with ⟨⟨hc1, hs1⟩, ⟨hc2, hs2⟩, hrest⟩
    simp [hlist, hrest, hs1, hs2, hc1, hc2]
  have hcast :
      (((Estimation.Estimate engineC3x reqC3x).CostDrivers.filter
          fun d => !d.IsSymbolic).map fun d => (d.Confidence : ℝ)) =
        [(0.9 : ℝ), 0.4] := by
    rw [show (fun d => (d.Confidence : ℝ)) =
        (fun q : ℚ => (q : ℝ)) ∘ (fun d : Estimation.CostDriver => d.Confidence)
      from rfl]
    rw [← List.map_map, hfilter]
    norm_num
  refine ⟨heval.1, hfilter, heval.2.2, hgm, ?_⟩
  rw [heval.2.2, hcast, hgm]
  norm_num

namespace Policy

/-- `Policy` from `decision/policy/engine.go`.  The Go field `Type` (the
`PolicyType` string constant) is called `PType`; thresholds are exact
rationals. -/
structure Policy where
  ID : String
  Name : String
  Description : String
  PType : String
  Severity : String
  Threshold : ℚ
  Enabled : Bool
deriving DecidableEq

/-- `Violation` from the policy engine; the `fmt.Sprintf` message formatting
of numbers is not modelled, each violation carries a fixed description. -/
structure Violation where
  PolicyID : String
  PolicyName : String
  Message : String
  Severity : String
deriving DecidableEq

/-- `Warning` from the policy engine. -/
structure Warning where
  PolicyID : String
  Message : String
deriving DecidableEq

/-- `EvaluationRequest` from the policy engine. -/
structure EvaluationRequest where
  Estimation : Estimation.EstimationResult
  Environment : String
  CustomPolicies : List Policy

/-- `EvaluationResult` from the policy engine; `Decision` is one of the
strings `pass`, `warn`, `deny`; the `EvaluatedAt` timestamp is not
modelled. -/
structure EvaluationResult where
  Decision : String
  Violations : List Violation
  Warnings : List Warning
  PoliciesRan : ℕ
deriving DecidableEq

/-- `Engine.evaluatePolicy`: the per-policy rule dispatch.  Cost limit
fires on `P90 > threshold`; the confidence threshold fires on
`confidence < threshold/100` as an error violation or a warning by
severity; carbon budget on `carbon > threshold`; the incomplete-estimate
rule fires exactly when the estimation is incomplete and the environment
is `prod`. -/
def evaluatePolicy (p : Policy) (est : Estimation.EstimationResult)
    (env : String) : Option Violation × Option Warning :=
  match p.PType with
  | "cost_limit" =>
    if p.Threshold < est.MonthlyCostP90 then
      (some ⟨p.ID, p.Name, "Monthly cost P90 exceeds limit", p.Severity⟩, none)
    else (none, none)
  | "confidence_threshold" =>
    if est.Confidence < p.Threshold / 100 then
      if p.Severity = "error" then
        (some ⟨p.ID, p.Name, "Estimation confidence below threshold", p.Severity⟩,
         none)
      else (none, some ⟨p.ID, "Estimation confidence below recommended"⟩)
    else (none, none)
  | "carbon_budget" =>
    if p.Threshold < est.CarbonKgCO2 then
      (some ⟨p.ID, p.Name, "Carbon emissions exceed budget", p.Severity⟩, none)
    else (none, none)
  | "incomplete_estimate" =>
    if est.IsIncomplete ∧ env = "prod" then
      (some ⟨p.ID, p.Name, "Incomplete estimation not allowed in production",
        p.Severity⟩, none)
    else (none, none)
  | _ => (none, none)

/-- One iteration of the policy loop of `Engine.Evaluate`: disabled
policies are skipped; an error-severity violation forces `deny`, any other
violation upgrades a non-deny decision to `warn`, and a warning upgrades
only `pass` to `warn` — `deny` is absorbing. -/
def evalStep (est : Estimation.EstimationResult) (env : String)
    (r : EvaluationResult) (p : Policy) : EvaluationResult :=
  if ¬ p.Enabled then r
  else
    let r := { r with PoliciesRan := r.PoliciesRan + 1 }
    let vw := evaluatePolicy p est env
    let r :=
      match vw.1 with
      | some v =>
        { r with
          Violations := r.Violations ++ [v]
          Decision :=
            if p.Severity = "error" then "deny"
            else if ¬ r.Decision = "deny" then "warn"
            else r.Decision }
      | none => r
    match vw.2 with
    | some w =>
      { r with
        Warnings := r.Warnings ++ [w]
        Decision := if r.Decision = "pass" then "warn" else r.Decision }
    | none => r

/-- The policy `Engine`: its installed policies and the outcome of the OPA
call when an endpoint is configured (`none` models no endpoint or a failed
call, which `Evaluate` ignores; the source's `evaluateOPA` currently
parses no violations, so the parameter over-approximates any endpoint
response). -/
structure Engine where
  policies : List Policy
  opa : Option (List Violation × List Warning)

/-- `Engine.Evaluate` from the policy engine: starts at `pass`, folds the
built-in and custom policies, then appends the OPA outcome, denying when
OPA produced violations. -/
def Engine.Evaluate (e : Engine) (req : EvaluationRequest) : EvaluationResult :=
  let result : EvaluationResult := ⟨"pass", [], [], 0⟩
  let allPolicies := e.policies ++ req.CustomPolicies
  let result := allPolicies.foldl (evalStep req.Estimation req.Environment) result
  match e.opa with
  | some vw =>
    let result :=
      { result with
        Violations := result.Violations ++ vw.1
        Warnings := result.Warnings ++ vw.2 }
    if 0 < vw.1.length then { result with Decision := "deny" } else result
  | none => result

/-- `defaultPolicies` from the policy engine: a 70% confidence warning and
the enabled, error-severity `prod-incomplete` gate. -/
def defaultPolicies : List Policy :=
  [⟨"default-confidence", "Minimum Confidence",
    "Warn when estimation confidence is below 70%",
    "confidence_threshold", "warning", 70, true⟩,
   ⟨"prod-incomplete", "No Incomplete in Prod",
    "Block incomplete estimations in production",
    "incomplete_estimate", "error", 0, true⟩]

theorem evalStep_deny_absorb (est : Estimation.EstimationResult) (env : String)
    (r : EvaluationResult) (p : Policy) (hr : r.Decision = "deny") :
    (evalStep est env r p).Decision = "deny" := by
  unfold evalStep
  by_cases hen : p.Enabled
  · simp only [hen, not_true, if_false]
    cases hv : (evaluatePolicy p est env).1 with
    | some v =>
      cases hw : (evaluatePolicy p est env).2 with
      | some w =>
        simp only [hv, hw]
        by_cases hs : p.Severity = "error" <;> simp [hs, hr]
      | none =>
        simp only [hv, hw]
        by_cases hs : p.Severity = "error" <;> simp [hs, hr]
    | none =>
      cases hw : (evaluatePolicy p est env).2 with
      | some w => simp [hv, hw, hr]
      | none => simp [hv, hw, hr]
  · simp [hen, hr]

theorem foldl_deny_absorb (est : Estimation.EstimationResult) (env : String) :
    ∀ (ps : List Policy) (r : EvaluationResult), r.Decision = "deny" →
      (ps.foldl (evalStep est env) r).Decision = "deny" := by
  intro ps
  induction ps with
  | nil => intro r hr; exact hr
  | cons p rest ih =>
    intro r hr
    exact ih _ (evalStep_deny_absorb est env r p hr)

theorem evalStep_prod_incomplete (est : Estimation.EstimationResult)
    (env : String) (r : EvaluationResult) (hinc : est.IsIncomplete = true)
    (henv : env = "prod") :
    (evalStep est env r
      ⟨"prod-incomplete", "No Incomplete in Prod",
        "Block incomplete estimations in production",
        "incomplete_estimate", "error", 0, true⟩).Decision = "deny" := by
  simp [evalStep, evaluatePolicy, hinc, henv]

end Policy

/-- C4: for every estimation result marked incomplete, evaluated for the
`prod` environment by a policy engine built from the default policies —
however many additional installed or custom policies are configured, and
whatever the OPA endpoint returns — the decision is `deny`: the enabled
error-severity `prod-incomplete` default forces `deny`, and `deny` is
absorbing through the remaining policies and the OPA step. -/
theorem c4_incomplete_prod_denies (extra custom : List Policy.Policy)
    (opa : Option (List Policy.Violation × List Policy.Warning))
    (est : Estimation.EstimationResult) (env : String)
    (hinc : est.IsIncomplete = true) (henv : env = "prod") :
    (Policy.Engine.Evaluate ⟨Policy.defaultPolicies ++ extra, opa⟩
      ⟨est, env, custom⟩).Decision = "deny" := by
  unfold Policy.Engine.Evaluate
  have hfold :
      ((Policy.defaultPolicies ++ extra ++ custom).foldl
        (Policy.evalStep est env) ⟨"pass", [], [], 0⟩).Decision = "deny" := by
    rw [show Policy.defaultPolicies ++ extra ++ custom =
      (⟨"default-confidence", "Minimum Confidence",
        "Warn when estimation confidence is below 70%",
        "confidence_threshold", "warning", 70, true⟩ : Policy.Policy) ::
      (⟨"prod-incomplete", "No Incomplete in Prod",
        "Block incomplete estimations in production",
        "incomplete_estimate", "error", 0, true⟩ : Policy.Policy) ::
        (extra ++ custom) from rfl]
    rw [List.foldl_cons, List.foldl_cons]
    exact Policy.foldl_deny_absorb est env _ _
      (Policy.evalStep_prod_incomplete est env _ hinc henv)
  simp only
  cases opa with
  | none => simpa using hfold
  | some vw =>
    simp only
    by_cases hlen : 0 < vw.1.length
    · simp [hlen]
    · simp only [hlen, if_false]
      simpa using hfold

/-- C4 witness: the deny gate applied to a concrete incomplete estimation
in `prod` with no extra policies and no OPA endpoint. -/
theorem c4_witness :
    (Policy.Engine.Evaluate ⟨Policy.defaultPolicies ++ [], none⟩
      ⟨⟨0, 0, 0, 0, [], [], 0, true, [], [], ⟨"prod", "default", []⟩, 0, 0, 1⟩,
        "prod", []⟩).Decision = "deny" :=
  c4_incomplete_prod_denies [] [] none
    ⟨0, 0, 0, 0, [], [], 0, true, [], [], ⟨"prod", "default", []⟩, 0, 0, 1⟩
    "prod" rfl rfl

namespace Ingestion

/-- `clickhouse.PricingSnapshot` as the ingestion adapter fills it: uuid
modelled as a natural, timestamps as integers, `created_at` not
modelled. -/
structure PricingSnapshot where
  ID : ℕ
  Cloud : String
  Region : String
  ProviderAlias : String
  Source : String
  FetchedAt : ℤ
  ValidFrom : ℤ
  ValidTo : Option ℤ
  Hash : String
  Version : String
  IsActive : Bool
deriving DecidableEq

/-- `PriceEntry` from the ingestion adapter. -/
structure PriceEntry where
  Service : String
  ProductFamily : String
  Region : String
  Attributes : List (String × String)
  Unit : String
  Price : ℚ
  Currency : String
  Confidence : ℚ
  TierMin : Option ℚ
  TierMax : Option ℚ
  EffectiveDate : Option ℤ
deriving DecidableEq

/-- `IngestionInput` from the ingestion adapter. -/
structure IngestionInput where
  Cloud : String
  Region : String
  Alias : String
  Source : String
  FetchedAt : ℤ
  ValidFrom : ℤ
  ValidTo : Option ℤ
  Hash : String
  Prices : List PriceEntry
deriving DecidableEq

/-- `IngestionResult` from the ingestion adapter; `Duration` is not
modelled. -/
structure IngestionResult where
  SnapshotID : ℕ
  Cloud : String
  Region : String
  RateKeyCount : ℕ
  PriceCount : ℕ
  Success : Bool
  ErrorMessage : String
deriving DecidableEq

/-- The ClickHouse snapshot table as the adapter sees it, with the uuid
generator state (`uuid.New` yields `nextID`) and the count of inserted
rate rows (the rate-key and rate-row details play no role in the snapshot
claims). -/
structure StoreState where
  snapshots : List PricingSnapshot
  rateRows : ℕ
  nextID : ℕ
deriving DecidableEq

/-- `Store.CreateSnapshot`: an insert into the snapshot table. -/
def CreateSnapshot (st : StoreState) (snap : PricingSnapshot) : StoreState :=
  { st with snapshots := st.snapshots ++ [snap] }

/-- `Store.GetSnapshot`: lookup by id. -/
def GetSnapshot (st : StoreState) (id : ℕ) : Option PricingSnapshot :=
  st.snapshots.find? fun s => s.ID = id

/-- `Store.GetActiveSnapshot`: the active snapshot for
`(cloud, region, alias)`. -/
def GetActiveSnapshot (st : StoreState) (cloud region palias : String) :
    Option PricingSnapshot :=
  st.snapshots.find? fun s =>
    s.Cloud = cloud ∧ s.Region = region ∧ s.ProviderAlias = palias ∧
      s.IsActive = true

/-- `Store.FindSnapshotByHash`: the dedup lookup by
`(cloud, region, alias, hash)` — defined by the store but never invoked by
`IngestPricing`. -/
def FindSnapshotByHash (st : StoreState) (cloud region palias hash : String) :
    Option PricingSnapshot :=
  st.snapshots.find? fun s =>
    s.Cloud = cloud ∧ s.Region = region ∧ s.ProviderAlias = palias ∧
      s.Hash = hash

/-- `Store.ActivateSnapshot`: deactivates the other active snapshots of the
target's `(cloud, region, alias)` and activates the target; fails when the
id is unknown. -/
def ActivateSnapshot (st : StoreState) (id : ℕ) : Except String StoreState :=
  match GetSnapshot st id with
  | none => .error "snapshot not found"
  | some snap =>
    .ok { st with
      snapshots := st.snapshots.map fun s =>
        if s.Cloud = snap.Cloud ∧ s.Region = snap.Region ∧
            s.ProviderAlias = snap.ProviderAlias ∧ s.IsActive = true ∧
            ¬ s.ID = id then
          { s with IsActive := false }
        else if s.ID = id then { s with IsActive := true }
        else s }

/-- `ClickHouseAdapter.IngestPricing`: creates a fresh snapshot
(`uuid.New()`, inactive, version `1.0`) for every call — the content hash
is stored but never checked against existing snapshots — inserts the rate
rows, then activates the new snapshot.  Returns the updated store and the
result. -/
def IngestPricing (st0 : StoreState) (input : IngestionInput) :
    StoreState × IngestionResult :=
  let snapshot : PricingSnapshot :=
    { ID := st0.nextID
      Cloud := input.Cloud
      Region := input.Region
      ProviderAlias := input.Alias
      Source := input.Source
      FetchedAt := input.FetchedAt
      ValidFrom := input.ValidFrom
      ValidTo := input.ValidTo
      Hash := input.Hash
      Version := "1.0"
      IsActive := false }
  let st := { st0 with nextID := st0.nextID + 1 }
  let st := CreateSnapshot st snapshot
  let st := { st with rateRows := st.rateRows + input.Prices.length }
  match ActivateSnapshot st snapshot.ID with
  | .error e =>
    (st, ⟨snapshot.ID, input.Cloud, input.Region, input.Prices.length,
      input.Prices.length, false, "failed to activate snapshot: " ++ e⟩)
  | .ok st2 =>
    (st2, ⟨snapshot.ID, input.Cloud, input.Region, input.Prices.length,
      input.Prices.length, true, ""⟩)

theorem ActivateSnapshot_nextID (st : StoreState) (id : ℕ) (st2 : StoreState)
    (h : ActivateSnapshot st id = .ok st2) : st2.nextID = st.nextID := by
  unfold ActivateSnapshot at h
  cases hg : GetSnapshot st id with
  | none => rw [hg] at h; exact absurd h (by simp)
  | some snap =>
    rw [hg] at h
    simp only [Except.ok.injEq] at h
    rw [← h]

theorem IngestPricing_snapshotID (st : StoreState) (input : IngestionInput) :
    (IngestPricing st input).2.SnapshotID = st.nextID := by
  simp only [IngestPricing, CreateSnapshot]
  split <;> rfl

theorem IngestPricing_nextID (st : StoreState) (input : IngestionInput) :
    (IngestPricing st input).1.nextID = st.nextID + 1 := by
  simp only [IngestPricing, CreateSnapshot]
  split
  · rfl
  · next st2 heq =>
    simpa using ActivateSnapshot_nextID _ _ _ heq

/-- The ingestion input of the C7 failing input, ingested twice. -/
def demoInputC7 : IngestionInput :=
  ⟨"aws", "us-east-1", "default", "aws_api", 0, 0, none, "cafebabe", []⟩

end Ingestion

/-- C7: re-ingesting an identical catalog payload is not deduplicated.
`IngestPricing` mints a fresh snapshot id on every call without consulting
`FindSnapshotByHash`, so for every store state a call returns id `nextID`
and an immediately repeated call returns `nextID + 1`; concretely,
ingesting the same payload twice from an empty store succeeds twice with
distinct snapshot ids `0` and `1`, leaves two snapshots carrying the same
`(provider, region, alias, hash)`, and the active snapshot id after the
second ingestion is the second id, not the first. -/
theorem c7_reingest_creates_new_snapshot :
    (∀ (st : Ingestion.StoreState) (input : Ingestion.IngestionInput),
      (Ingestion.IngestPricing st input).2.SnapshotID = st.nextID ∧
      (Ingestion.IngestPricing
        (Ingestion.IngestPricing st input).1 input).2.SnapshotID = st.nextID + 1) ∧
    ((Ingestion.IngestPricing ⟨[], 0, 0⟩ Ingestion.demoInputC7).2.Success = true ∧
     (Ingestion.IngestPricing
        (Ingestion.IngestPricing ⟨[], 0, 0⟩ Ingestion.demoInputC7).1
        Ingestion.demoInputC7).2.Success = true ∧
     (Ingestion.IngestPricing ⟨[], 0, 0⟩ Ingestion.demoInputC7).2.SnapshotID = 0 ∧
     (Ingestion.IngestPricing
        (Ingestion.IngestPricing ⟨[], 0, 0⟩ Ingestion.demoInputC7).1
        Ingestion.demoInputC7).2.SnapshotID = 1 ∧
     ((Ingestion.IngestPricing
          (Ingestion.IngestPricing ⟨[], 0, 0⟩ Ingestion.demoInputC7).1
          Ingestion.demoInputC7).1.snapshots.filter fun s =>
        s.Cloud = "aws" ∧ s.Region = "us-east-1" ∧
          s.ProviderAlias = "default" ∧ s.Hash = "cafebabe").length = 2 ∧
     ((Ingestion.GetActiveSnapshot
        (Ingestion.IngestPricing
          (Ingestion.IngestPricing ⟨[], 0, 0⟩ Ingestion.demoInputC7).1
          Ingestion.demoInputC7).1 "aws" "us-east-1" "default").map
        fun s => s.ID) = some 1) := by
  constructor
  · intro st input
    refine ⟨Ingestion.IngestPricing_snapshotID st input, ?_⟩
    rw [Ingestion.IngestPricing_snapshotID, Ingestion.IngestPricing_nextID]
  · refine ⟨?_, ?_, ?_, ?_, ?_, ?_⟩ <;> decide
